import Mathlib

/-!
# Verification of the ToDo-back task-management service

Shallow embedding of the core of the `ToDo-back` repository (an Express +
Prisma + Redis task-management backend) and proofs about its behaviour.

The embedding follows the source files:
* `src/services/taskService.ts`   — task CRUD, optimistic concurrency, query cache
* `src/services/starService.ts`   — per-user stars
* `src/middleware/auth.ts`        — authenticate / csrfProtection / rateLimit middleware
* `src/routes/tasks.ts`           — the tasks router (middleware chain, If-Match parsing)
* `src/routes/stars.ts`           — the stars router
* `src/routes/auth.ts`            — the forgot-password handler
* `src/services/authService.ts`   — `AuthService.forgotPassword`
* `src/utils/auth.ts`             — ephemeral store (Redis / in-memory fallback),
                                    CSRF tokens, rate limiting
* `src/validation/schemas.ts`     — zod validation schemas

Conventions: JavaScript numbers that are always non-negative integers in the
source (versions, counts, timestamps in ms) are modelled as `Nat`; `T | null`
and optional fields as `Option`; thrown errors as `Except`; Mongo/Prisma row
sets as association lists; Redis and the in-memory `Map` as association lists
with explicit expiry timestamps.  Mutation of the database is modelled by
returning a new system state.
-/

namespace ToDoBack

/-! ## Data model (prisma schema / src/types) -/

abbrev UserId := String
abbrev TaskId := String

/-- A user row (the fields the core operations read). -/
structure UserRec where
  id : UserId
  email : String
  name : String
  deriving Repr, DecidableEq

/-- A task row as stored by Prisma (prisma/schema.prisma `Task`). -/
structure StoredTask where
  id : TaskId
  title : String
  description : Option String
  createdBy : UserId
  updatedBy : Option UserId
  assignees : List UserId
  version : Nat
  isDeleted : Bool
  createdAt : Nat
  updatedAt : Nat
  deriving Repr, DecidableEq

/-- `CreateTaskData` (src/types): body of POST /tasks after validation. -/
structure CreateTaskData where
  title : String
  description : Option String
  deriving Repr, DecidableEq

/-- `UpdateTaskData` (src/types): the PATCH /tasks/:id patch; every field
    independently optional. -/
structure UpdateTaskData where
  title : Option String
  description : Option String
  assignees : Option (List UserId)
  deriving Repr, DecidableEq

/-- Audit actions (`TaskAudit.action`). -/
inductive AuditAction
  | create | update | delete | duplicate
  deriving Repr, DecidableEq

/-- The `diff` payload written by each mutation (taskService.ts). -/
inductive AuditDiff
  | createDiff (title : String) (description : Option String)
  | updateDiff (patch : UpdateTaskData) (updatedBy : UserId) (version : Nat)
  | deleteDiff
  | duplicateDiff (sourceTaskId : TaskId)
  | assignDiff (assignees : List UserId)
  deriving Repr, DecidableEq

/-- A `TaskAudit` row. -/
structure AuditEntry where
  taskId : TaskId
  byUser : UserId     -- `by` in the source; `by` is a Lean keyword
  action : AuditAction
  diff : AuditDiff
  deriving Repr, DecidableEq

/-- WebSocket events emitted by the mutation paths (websocketService.ts
    emitters, with their claim-relevant payload). -/
inductive WsEvent
  | taskCreated (taskId : TaskId)
  | taskUpdated (taskId : TaskId) (patch : UpdateTaskData) (version : Nat)
  | taskDeleted (taskId : TaskId)
  | taskAssigned (taskId : TaskId) (userId : UserId)
  | starAdded (taskId : TaskId) (userId : UserId)
  | starRemoved (taskId : TaskId) (userId : UserId)
  deriving Repr, DecidableEq

/-! ## Query engine types (getTasks) -/

inductive SortBy
  | createdAt | updatedAt | title | createdBy
  deriving Repr, DecidableEq

/-- The literal string of a sort field as it appears in cache keys. -/
def SortBy.str : SortBy → String
  | .createdAt => "createdAt"
  | .updatedAt => "updatedAt"
  | .title => "title"
  | .createdBy => "createdBy"

inductive SortOrder
  | asc | desc
  deriving Repr, DecidableEq

/-- The literal string of a sort order as it appears in cache keys. -/
def SortOrder.str : SortOrder → String
  | .asc => "asc"
  | .desc => "desc"

inductive Ctx
  | all | mine | starred
  deriving Repr, DecidableEq

/-- The literal string of a query context as it appears in cache keys. -/
def Ctx.str : Ctx → String
  | .all => "all"
  | .mine => "mine"
  | .starred => "starred"

/-- `TaskFilters` (src/types). -/
structure TaskFilters where
  search : String
  page : Nat
  limit : Nat
  sortBy : SortBy
  sortOrder : SortOrder
  context : Ctx
  deriving Repr, DecidableEq

/-- The API shape of a task in a list() response, restricted to the fields
    the verified properties observe (`id/title/description/assignees/version/
    isStarred` of the transformation in taskService.getTasks). -/
structure ApiTask where
  id : TaskId
  title : String
  description : String
  assignees : List UserId
  version : Nat
  isStarred : Bool
  deriving Repr, DecidableEq

/-- `PaginatedResponse` (src/types). -/
structure PaginatedResponse where
  items : List ApiTask
  page : Nat
  total : Nat
  hasMore : Bool
  deriving Repr, DecidableEq

/-! ## System state

One record holding the Prisma tables, the Redis query-cache keyspace
(`tasks:search:*`), the emitted WebSocket events and the id/clock supply. -/

structure SysState where
  tasks : List StoredTask
  stars : List (TaskId × UserId)
  audits : List AuditEntry
  users : List UserRec
  cache : List (String × PaginatedResponse)
  events : List WsEvent
  undoTokens : List String
  nextId : Nat
  now : Nat
  deriving Repr, DecidableEq

/-- Errors thrown by the service layer. -/
inductive TaskErr
  | notFound          -- 'המשימה לא נמצאה'
  | versionConflict   -- 'גרסת המשימה לא תואמת'
  deriving Repr, DecidableEq

instance {ε α : Type} [DecidableEq ε] [DecidableEq α] :
    DecidableEq (Except ε α) := fun x y =>
  match x, y with
  | .ok a, .ok b =>
    if h : a = b then .isTrue (by rw [h]) else .isFalse (by simp [h])
  | .error e, .error f =>
    if h : e = f then .isTrue (by rw [h]) else .isFalse (by simp [h])
  | .ok _, .error _ => .isFalse (by simp)
  | .error _, .ok _ => .isFalse (by simp)

/-! ## Cache helpers (taskService.ts lines 7–35) -/

def SEARCH_CACHE_PREFIX : String := "tasks:search:"

/-- `generateCacheKey` (taskService.ts line 12): context, search term or
    `'all'` (JS `search || 'all'` — the empty string is falsy), page, limit,
    sort field, sort order and the viewer id. -/
def generateCacheKey (f : TaskFilters) (viewer : UserRec) : String :=
  SEARCH_CACHE_PREFIX ++ f.context.str ++ ":" ++
    (if f.search = "" then "all" else f.search) ++ ":" ++
    toString f.page ++ ":" ++ toString f.limit ++ ":" ++
    f.sortBy.str ++ ":" ++ f.sortOrder.str ++ ":" ++ viewer.id

/-- Does a cache key live in the task query-cache keyspace
    (`redis.keys('tasks:search:*')`)? -/
def hasTaskCachePrefix (key : String) : Bool :=
  SEARCH_CACHE_PREFIX.data.isPrefixOf key.data

/-- `invalidateTaskCache` (taskService.ts line 20): prefix-scan-and-delete of
    every key in the query-cache keyspace. -/
def invalidateTaskCache (cache : List (String × PaginatedResponse)) :
    List (String × PaginatedResponse) :=
  cache.filter (fun kv => ! hasTaskCachePrefix kv.1)

/-! ## updateTask (taskService.ts lines 361–511) -/

/-- Look up the task the way `updateTask` does:
    `findFirst({ where: { id, isDeleted: false } })`. -/
def findActiveTask (st : SysState) (taskId : TaskId) : Option StoredTask :=
  st.tasks.find? (fun t => t.id == taskId && !t.isDeleted)

/-- Look up a task by id only (`findFirst({ where: { id } })`). -/
def findTask (st : SysState) (taskId : TaskId) : Option StoredTask :=
  st.tasks.find? (fun t => t.id == taskId)

/-- The optimistic-concurrency gate of `updateTask` (line 380):
    `if (expectedVersion && currentTask.version !== expectedVersion) throw`.
    JavaScript truthiness: `undefined` and `0` are both falsy, so the gate
    fires only for a present, non-zero expected version that differs. -/
def versionGateFails (stored : Nat) (expected : Option Nat) : Bool :=
  match expected with
  | none => false
  | some v => v != 0 && stored != v

/-- `TaskService.updateTask`.  Loads the active task, applies the
    optimistic-concurrency gate, patches only the fields present in
    `UpdateTaskData`, bumps the version by one, appends an `update` audit
    entry, emits `task:updated` with the literal patch, and invalidates the
    whole query cache.  Throws (`Except.error`) before any mutation on
    not-found or version conflict. -/
def updateTask (st : SysState) (taskId : TaskId) (d : UpdateTaskData)
    (currentUser : UserRec) (expectedVersion : Option Nat) :
    Except TaskErr (SysState × StoredTask) :=
  match findActiveTask st taskId with
  | none => .error .notFound
  | some currentTask =>
    if versionGateFails currentTask.version expectedVersion then
      .error .versionConflict
    else
      let updated : StoredTask :=
        { currentTask with
          updatedBy := some currentUser.id
          version := currentTask.version + 1
          updatedAt := st.now
          title := d.title.getD currentTask.title
          description :=
            match d.description with
            | some s => some s
            | none => currentTask.description
          assignees := d.assignees.getD currentTask.assignees }
      let tasks' := st.tasks.map (fun t =>
        if t.id == taskId && !t.isDeleted then updated else t)
      let audits' := st.audits ++
        [{ taskId := taskId, byUser := currentUser.id, action := .update,
           diff := .updateDiff d currentUser.id updated.version }]
      let events' := st.events ++ [.taskUpdated taskId d updated.version]
      .ok ({ st with tasks := tasks', audits := audits', events := events',
                     cache := invalidateTaskCache st.cache }, updated)

/-- The route-level effect of an `updateTask` call on the system state: the
    handler catches thrown errors, so a failed call leaves the state as it
    was (part_002 PATCH handler try/catch). -/
def updateTaskRun (st : SysState) (taskId : TaskId) (d : UpdateTaskData)
    (currentUser : UserRec) (expectedVersion : Option Nat) : SysState :=
  match updateTask st taskId d currentUser expectedVersion with
  | .ok (st', _) => st'
  | .error _ => st

/-! ## createTask (taskService.ts lines 289–358) -/

/-- Fresh Prisma object id supply. -/
def freshId (st : SysState) : TaskId :=
  "task-" ++ toString st.nextId

/-- `TaskService.createTask`: inserts a task with `version = 1`, no
    assignees, not deleted; `description: taskData.description || null`
    (the empty string is falsy in JS and becomes `null`); appends a
    `create` audit entry, emits `task:created`, invalidates the query
    cache. -/
def createTask (st : SysState) (d : CreateTaskData) (currentUser : UserRec) :
    SysState × StoredTask :=
  let t : StoredTask :=
    { id := freshId st
      title := d.title
      description :=
        match d.description with
        | some s => if s = "" then none else some s
        | none => none
      createdBy := currentUser.id
      updatedBy := none
      assignees := []
      version := 1
      isDeleted := false
      createdAt := st.now
      updatedAt := st.now }
  ({ st with
      tasks := st.tasks ++ [t]
      audits := st.audits ++
        [{ taskId := t.id, byUser := currentUser.id, action := .create,
           diff := .createDiff t.title t.description }]
      events := st.events ++ [.taskCreated t.id]
      cache := invalidateTaskCache st.cache
      nextId := st.nextId + 1 }, t)

/-! ## deleteTask (taskService.ts lines 513–566) -/

/-- `TaskService.deleteTask`: soft delete.  Finds the task by id, rejects
    already-deleted tasks, sets `isDeleted = true` (the version field is not
    touched), appends a `delete` audit entry, issues a 10-minute undo token,
    emits `task:deleted`, invalidates the query cache. -/
def deleteTask (st : SysState) (taskId : TaskId) (currentUser : UserRec) :
    Except TaskErr (SysState × String) :=
  match findTask st taskId with
  | none => .error .notFound
  | some task =>
    if task.isDeleted then .error .notFound
    else
      let tasks' := st.tasks.map (fun t =>
        if t.id == taskId then { t with isDeleted := true, updatedAt := st.now } else t)
      let undoToken := "undo-" ++ taskId ++ "-" ++ toString st.now
      .ok ({ st with
              tasks := tasks'
              audits := st.audits ++
                [{ taskId := taskId, byUser := currentUser.id, action := .delete,
                   diff := .deleteDiff }]
              undoTokens := st.undoTokens ++ [undoToken]
              events := st.events ++ [.taskDeleted taskId]
              cache := invalidateTaskCache st.cache }, undoToken)

/-! ## duplicateTask (taskService.ts lines 568–650)

Note: unlike create/update/delete, `duplicateTask` never calls
`invalidateTaskCache` in the source, and it emits `task:created` (not a
distinct duplicated event). -/

/-- `TaskService.duplicateTask`. -/
def duplicateTask (st : SysState) (taskId : TaskId) (currentUser : UserRec) :
    Except TaskErr (SysState × StoredTask) :=
  match findTask st taskId with
  | none => .error .notFound
  | some originalTask =>
    if originalTask.isDeleted then .error .notFound
    else
      let t : StoredTask :=
        { id := freshId st
          title := originalTask.title ++ " (עותק)"
          description := originalTask.description
          createdBy := currentUser.id
          updatedBy := none
          assignees := originalTask.assignees
          version := 1
          isDeleted := false
          createdAt := st.now
          updatedAt := st.now }
      .ok ({ st with
              tasks := st.tasks ++ [t]
              audits := st.audits ++
                [{ taskId := t.id, byUser := currentUser.id, action := .duplicate,
                   diff := .duplicateDiff taskId }]
              events := st.events ++ [.taskCreated t.id]
              nextId := st.nextId + 1 }, t)

/-! ## assignSelfToTask (taskService.ts lines 652–698)

Note: no cache invalidation in the source. -/

/-- `TaskService.assignSelfToTask`: idempotent.  If the actor is already an
    assignee, returns with no change at all; otherwise appends the actor to
    the assignees, bumps the version by one, appends an `update` audit entry
    and emits `task:assigned`. -/
def assignSelfToTask (st : SysState) (taskId : TaskId) (currentUser : UserRec) :
    Except TaskErr SysState :=
  match findTask st taskId with
  | none => .error .notFound
  | some task =>
    if task.isDeleted then .error .notFound
    else if task.assignees.contains currentUser.id then .ok st
    else
      let tasks' := st.tasks.map (fun t =>
        if t.id == taskId then
          { t with assignees := task.assignees ++ [currentUser.id]
                   updatedBy := some currentUser.id
                   version := task.version + 1
                   updatedAt := st.now }
        else t)
      .ok { st with
              tasks := tasks'
              audits := st.audits ++
                [{ taskId := taskId, byUser := currentUser.id, action := .update,
                   diff := .assignDiff (task.assignees ++ [currentUser.id]) }]
              events := st.events ++ [.taskAssigned taskId currentUser.id] }

/-! ## Stars (starService.ts)

Neither `addStar` nor `removeStar` touches the query cache in the source. -/

/-- `StarService.addStar`: requires the task to exist and not be deleted;
    idempotent on the unique (taskId, userId) pair. -/
def addStar (st : SysState) (taskId : TaskId) (currentUser : UserRec) :
    Except TaskErr SysState :=
  match findTask st taskId with
  | none => .error .notFound
  | some task =>
    if task.isDeleted then .error .notFound
    else if st.stars.contains (taskId, currentUser.id) then .ok st
    else
      .ok { st with
              stars := st.stars ++ [(taskId, currentUser.id)]
              events := st.events ++ [.starAdded taskId currentUser.id] }

/-- `StarService.removeStar`: `deleteMany` on the (taskId, userId) pair;
    never throws not-found, and only emits an event when a row was removed. -/
def removeStar (st : SysState) (taskId : TaskId) (currentUser : UserRec) : SysState :=
  let remaining := st.stars.filter (fun p => ! (p.1 == taskId && p.2 == currentUser.id))
  if remaining.length == st.stars.length then st
  else
    { st with
        stars := remaining
        events := st.events ++ [.starRemoved taskId currentUser.id] }

/-! ## getTasks (taskService.ts lines 39–225): the query engine -/

/-- JavaScript `String.prototype.trim`: strip leading and trailing
    whitespace. -/
def strTrim (s : String) : String :=
  ⟨((s.data.dropWhile Char.isWhitespace).reverse.dropWhile Char.isWhitespace).reverse⟩

/-- Case-folded character data of a string, for Mongo's
    `contains, mode: 'insensitive'`. -/
def lowerData (s : String) : List Char :=
  s.data.map Char.toLower

/-- Contiguous-substring test on character lists. -/
def listContainsSub (needle hay : List Char) : Bool :=
  hay.tails.any (fun t => needle.isPrefixOf t)

/-- Case-insensitive substring match (`{ contains: term, mode: 'insensitive' }`). -/
def containsInsensitive (field term : String) : Bool :=
  listContainsSub (lowerData term) (lowerData field)

/-- Does a task match the free-text search term? (`title` or `description`
    contains the term; a `null` description matches nothing.) -/
def searchMatches (term : String) (t : StoredTask) : Bool :=
  containsInsensitive t.title term ||
    (match t.description with
     | some d => containsInsensitive d term
     | none => false)

/-- The task ids the viewer has starred (for `context = 'starred'`). -/
def starredTaskIds (st : SysState) (viewer : UserRec) : List TaskId :=
  (st.stars.filter (fun p => p.2 == viewer.id)).map (·.1)

/-- The `where` clause of `getTasks`: never-deleted, context filter, and the
    optional search filter (`if (search && search.trim())`). -/
def taskWhere (st : SysState) (f : TaskFilters) (viewer : UserRec)
    (t : StoredTask) : Bool :=
  !t.isDeleted &&
  (match f.context with
   | .all => true
   | .mine => t.createdBy == viewer.id || t.assignees.contains viewer.id
   | .starred => (starredTaskIds st viewer).contains t.id) &&
  (if strTrim f.search = "" then true else searchMatches (strTrim f.search) t)

/-- Name of a task's creator (used by `orderBy.creator.name` when
    `sortBy = 'createdBy'`). -/
def creatorName (st : SysState) (t : StoredTask) : String :=
  (((st.users.find? (fun u => u.id == t.createdBy)).map (fun u => u.name))).getD ""

/-- `orderBy` comparator of `getTasks`. -/
def taskLe (st : SysState) (sb : SortBy) (ord : SortOrder)
    (a b : StoredTask) : Bool :=
  let le :=
    match sb with
    | .createdAt => decide (a.createdAt ≤ b.createdAt)
    | .updatedAt => decide (a.updatedAt ≤ b.updatedAt)
    | .title => decide (a.title ≤ b.title)
    | .createdBy => decide (creatorName st a ≤ creatorName st b)
  let ge :=
    match sb with
    | .createdAt => decide (b.createdAt ≤ a.createdAt)
    | .updatedAt => decide (b.updatedAt ≤ a.updatedAt)
    | .title => decide (b.title ≤ a.title)
    | .createdBy => decide (creatorName st b ≤ creatorName st a)
  match ord with
  | .asc => le
  | .desc => ge

/-- Stable insertion into a sorted list. -/
def insertLe {α : Type} (le : α → α → Bool) (x : α) : List α → List α
  | [] => [x]
  | y :: ys => if le x y then x :: y :: ys else y :: insertLe le x ys

/-- Stable insertion sort modelling the store's `orderBy`. -/
def sortByLe {α : Type} (le : α → α → Bool) : List α → List α
  | [] => []
  | x :: xs => insertLe le x (sortByLe le xs)

/-- The API projection of one task row (`transformedTasks` in getTasks):
    `description || ''`, `isStarred` from the viewer's stars. -/
def toApiTask (st : SysState) (viewer : UserRec) (t : StoredTask) : ApiTask :=
  { id := t.id
    title := t.title
    description := t.description.getD ""
    assignees := t.assignees
    version := t.version
    isStarred := st.stars.contains (t.id, viewer.id) }

/-- The uncached computation of `getTasks`: filter, sort, paginate
    (`skip = (page-1)*limit`, `take = limit`), `total` from the same where
    clause, `hasMore = page*limit < total`. -/
def computeGetTasks (st : SysState) (f : TaskFilters) (viewer : UserRec) :
    PaginatedResponse :=
  let matching := st.tasks.filter (taskWhere st f viewer)
  let sorted := sortByLe (taskLe st f.sortBy f.sortOrder) matching
  let pageItems := (sorted.drop ((f.page - 1) * f.limit)).take f.limit
  let total := matching.length
  { items := pageItems.map (toApiTask st viewer)
    page := f.page
    total := total
    hasMore := decide (f.page * f.limit < total) }

/-- `TaskService.getTasks`: read-through cache.  On a hit the cached
    response is returned unchanged; on a miss the response is computed from
    the store and cached under the generated key (TTL 5 minutes, not
    modelled as expiring within a request sequence). -/
def getTasks (st : SysState) (f : TaskFilters) (viewer : UserRec) :
    SysState × PaginatedResponse :=
  let key := generateCacheKey f viewer
  match st.cache.lookup key with
  | some cached => (st, cached)
  | none =>
    let result := computeGetTasks st f viewer
    ({ st with cache := st.cache ++ [(key, result)] }, result)

/-! ## Validation schemas (src/validation/schemas.ts)

zod pipelines are modelled check-by-check in source order.  Note that in
`taskSchema` the description has `.min(1, 'תיאור הוא שדה חובה')` — it is a
required, non-empty field on create — while `updateTaskSchema` makes every
field optional and puts no minimum on the description. -/

/-- A validation failure (the route only inspects that validation failed). -/
inductive ValErr
  | required (field : String)
  | tooShort (field : String)
  | tooLong (field : String)
  | invalid (field : String)
  deriving Repr, DecidableEq

/-- Raw JSON body of POST /tasks (fields may be absent). -/
structure CreateBody where
  title : Option String
  description : Option String
  deriving Repr, DecidableEq

/-- `taskSchema.title`: `z.string().min(1).max(120).trim()` — the length
    checks run on the raw string, then `.trim()` transforms the output. -/
def parseCreateTitle : Option String → Except ValErr String
  | none => .error (.required "title")
  | some s =>
    if s.length < 1 then .error (.tooShort "title")
    else if s.length > 120 then .error (.tooLong "title")
    else .ok (strTrim s)

/-- `taskSchema.description`: `z.string().min(1).max(5000)` (required). -/
def parseCreateDescription : Option String → Except ValErr String
  | none => .error (.required "description")
  | some s =>
    if s.length < 1 then .error (.tooShort "description")
    else if s.length > 5000 then .error (.tooLong "description")
    else .ok s

/-- `taskSchema.parse` for POST /tasks bodies. -/
def taskSchemaParse (b : CreateBody) : Except ValErr CreateTaskData := do
  let t ← parseCreateTitle b.title
  let d ← parseCreateDescription b.description
  return { title := t, description := some d }

/-- Raw JSON body of PATCH /tasks/:id. -/
structure UpdateBody where
  title : Option String
  description : Option String
  assignees : Option (List String)
  deriving Repr, DecidableEq

/-- One hex digit of a Mongo object id. -/
def isHexDigit (c : Char) : Bool :=
  c.isDigit || (decide ('a' ≤ c) && decide (c ≤ 'f')) ||
    (decide ('A' ≤ c) && decide (c ≤ 'F'))

/-- The route-level id check `/^[0-9a-fA-F]{24}$/`. -/
def isHexId24 (s : String) : Bool :=
  s.length == 24 && s.data.all isHexDigit

/-- `updateTaskSchema.title`: optional, but if present `min(1).max(120).trim()`. -/
def parseUpdateTitle : Option String → Except ValErr (Option String)
  | none => .ok none
  | some s =>
    if s.length < 1 then .error (.tooShort "title")
    else if s.length > 120 then .error (.tooLong "title")
    else .ok (some (strTrim s))

/-- `updateTaskSchema.description`: optional, `max(5000)` only (no minimum). -/
def parseUpdateDescription : Option String → Except ValErr (Option String)
  | none => .ok none
  | some s =>
    if s.length > 5000 then .error (.tooLong "description")
    else .ok (some s)

/-- `updateTaskSchema.assignees`: optional array of object ids, at most 20. -/
def parseUpdateAssignees : Option (List String) → Except ValErr (Option (List String))
  | none => .ok none
  | some l =>
    if ! l.all isHexId24 then .error (.invalid "assignees")
    else if l.length > 20 then .error (.tooLong "assignees")
    else .ok (some l)

/-- `updateTaskSchema.parse`, including the `.refine` that at least one of
    the three fields is present. -/
def updateTaskSchemaParse (b : UpdateBody) : Except ValErr UpdateTaskData := do
  let t ← parseUpdateTitle b.title
  let d ← parseUpdateDescription b.description
  let a ← parseUpdateAssignees b.assignees
  if t = none ∧ d = none ∧ a = none then
    .error (.invalid "refine")
  else
    return { title := t, description := d, assignees := a }

/-! ## If-Match parsing (routes/tasks.ts PATCH handler, lines 190–199) -/

/-- Decimal value of a digit run (`parseInt`). -/
def digitsToNat (ds : List Char) : Nat :=
  ds.foldl (fun acc c => acc * 10 + (c.toNat - Char.toNat '0')) 0

/-- The PATCH handler's If-Match parsing: `ifMatch.match` against the
    anchored pattern «double quote, one or more digits, dash», and
    `parseInt` of the captured digits when the header is truthy and
    matches; otherwise `expectedVersion` stays `undefined`. -/
def parseIfMatch : Option String → Option Nat
  | none => none
  | some s =>
    match s.data with
    | [] => none          -- the empty header string is falsy: `if (ifMatch)`
    | c :: rest =>
      if c = '"' then
        let ds := rest.takeWhile Char.isDigit
        if ds ≠ [] ∧ (rest.drop ds.length).head? = some '-' then
          some (digitsToNat ds)
        else none
      else none

/-! ## HTTP responses and the task route handlers (routes/tasks.ts) -/

/-- What the verified properties observe of an HTTP response. -/
structure HttpResp where
  status : Nat
  message : Option String
  deriving Repr, DecidableEq

/-- The PATCH /tasks/:id handler: id-shape check (400), body validation
    (400), If-Match → `expectedVersion`, then `updateTask` with the thrown
    errors mapped to 404 / 409 and success to 200.  A failed call leaves
    the state unchanged. -/
def patchTaskRoute (st : SysState) (taskId : String) (body : UpdateBody)
    (ifMatch : Option String) (user : UserRec) : SysState × HttpResp :=
  if ! isHexId24 taskId then
    (st, { status := 400, message := some "מזהה משימה לא תקין" })
  else
    match updateTaskSchemaParse body with
    | .error _ => (st, { status := 400, message := some "נתונים לא תקינים" })
    | .ok patch =>
      let expectedVersion := parseIfMatch ifMatch
      match updateTask st taskId patch user expectedVersion with
      | .ok (st', _) => (st', { status := 200, message := none })
      | .error .notFound => (st, { status := 404, message := some "המשימה לא נמצאה" })
      | .error .versionConflict => (st, { status := 409, message := some "גרסת המשימה לא תואמת" })

/-- The POST /tasks handler: body validation (400) then `createTask` (201). -/
def postTaskRoute (st : SysState) (body : CreateBody) (user : UserRec) :
    SysState × HttpResp :=
  match taskSchemaParse body with
  | .error _ => (st, { status := 400, message := some "נתונים לא תקינים" })
  | .ok d =>
    let (st', _) := createTask st d user
    (st', { status := 201, message := none })

/-! ## Ephemeral store (src/utils/auth.ts lines 11–97)

Redis and the in-memory fallback `Map`, with `getStorage` selecting between
them from `REDIS_DISABLED` / availability flags. -/

/-- Which backend `getStorage()` returned. -/
inductive Backend
  | redis | memory
  deriving Repr, DecidableEq

/-- `getStorage`: in-memory when `REDIS_DISABLED === 'true'`; otherwise
    Redis when available (`NODE_ENV === 'production' || REDIS_URL`), else
    the in-memory fallback. -/
def getStorage (redisDisabled : Bool) (redisAvailable : Bool) : Backend :=
  if redisDisabled then .memory
  else if redisAvailable then .redis
  else .memory

/-- An entry of the in-memory fallback `Map` (`{ data, expiresAt }`). -/
structure MemItem where
  data : String
  expiresAt : Nat
  deriving Repr, DecidableEq

/-- Overwriting insert into an association list (`Map.set` / `SET`). -/
def assocSet {β : Type} (l : List (String × β)) (k : String) (v : β) :
    List (String × β) :=
  (k, v) :: l.filter (fun p => p.1 != k)

/-- The ephemeral key/value state: the (possibly remote) Redis keyspace,
    the process-local fallback `Map`, and the session slots (stored through
    the same `setWithExpiration`/`getValue` helpers; modelled as their own
    table to keep their payload structured). -/
structure SessionRec where
  user : UserRec
  expiresAt : Nat
  deriving Repr, DecidableEq

structure EphState where
  redisKV : List (String × String)
  memKV : List (String × MemItem)
  sessions : List (String × SessionRec)
  deriving Repr, DecidableEq

/-- `setWithExpiration`: `redis.setEx` on the Redis backend, or a `Map.set`
    with `expiresAt = now + ttl*1000` on the fallback. -/
def setWithExpiration (b : Backend) (eph : EphState) (key value : String)
    (ttlSeconds : Nat) (now : Nat) : EphState :=
  match b with
  | .redis => { eph with redisKV := assocSet eph.redisKV key value }
  | .memory =>
    let item : MemItem := { data := value, expiresAt := now + ttlSeconds * 1000 }
    { eph with memKV := assocSet eph.memKV key item }

/-- `getValue` on the fallback backend: absent or past-expiry keys read as
    `null`. -/
def memGetValue (eph : EphState) (key : String) (now : Nat) : Option String :=
  match eph.memKV.lookup key with
  | none => none
  | some item => if now > item.expiresAt then none else some item.data

/-! ## CSRF tokens (src/utils/auth.ts lines 334–357)

`storeCSRFToken` writes through `setWithExpiration` (and therefore lands in
whichever backend `getStorage()` selected), but `validateCSRFToken` reads
`redis.get` directly — it never consults the fallback store. -/

/-- `storeCSRFToken(token, sessionToken)`: key `csrf:<sessionToken>`,
    TTL 3600 s, via `setWithExpiration`. -/
def storeCSRFToken (b : Backend) (eph : EphState) (token sessionToken : String)
    (now : Nat) : EphState :=
  setWithExpiration b eph ("csrf:" ++ sessionToken) token 3600 now

/-- `validateCSRFToken(token, sessionToken)`:
    `redis.get('csrf:' + sessionToken) === token` — a direct Redis read
    (errors are caught and yield `false`), regardless of the backend the
    store side used. -/
def validateCSRFToken (eph : EphState) (token sessionToken : String) : Bool :=
  eph.redisKV.lookup ("csrf:" ++ sessionToken) == some token

/-! ## Sessions and middleware (src/utils/auth.ts, src/middleware/auth.ts) -/

/-- JavaScript truthiness of an optional string: absent and `''` are falsy. -/
def truthy : Option String → Option String
  | none => none
  | some s => if s = "" then none else some s

/-- `getSession`: absent key → `null`; stored but past `expiresAt` → the
    slot is dropped and `null` returned; otherwise the embedded user
    snapshot.  (The lazy deletion touches only the session slot.) -/
def getSession (eph : EphState) (token : String) (now : Nat) :
    Option UserRec × EphState :=
  match eph.sessions.lookup ("session:" ++ token) with
  | none => (none, eph)
  | some s =>
    if s.expiresAt < now then
      (none, { eph with sessions :=
        eph.sessions.filter (fun p => p.1 != ("session:" ++ token)) })
    else (some s.user, eph)

/-- What the middleware reads from an inbound request. -/
structure HttpReq where
  method : String
  ip : String
  path : String
  cookieSession : Option String
  bearer : Option String
  csrfHeader : Option String
  ifMatch : Option String
  deriving Repr, DecidableEq

/-- `req.cookies?.session || req.headers.authorization?.replace(...)`. -/
def extractSessionToken (req : HttpReq) : Option String :=
  match truthy req.cookieSession with
  | some c => some c
  | none => req.bearer

/-- Outcome of one Express middleware: pass control on or halt with a
    response. -/
inductive MWResult
  | next
  | halt (status : Nat) (message : String)
  deriving Repr, DecidableEq

/-- `csrfProtection` (middleware/auth.ts lines 93–140): GET requests are
    exempt; a missing CSRF header or session token is a 403; otherwise the
    header is validated against the token bound to the session. -/
def csrfProtection (req : HttpReq) (eph : EphState) : MWResult :=
  if req.method = "GET" then .next
  else
    match truthy req.csrfHeader, truthy (extractSessionToken req) with
    | some csrfToken, some sessionToken =>
      if validateCSRFToken eph csrfToken sessionToken then .next
      else .halt 403 "CSRF token לא תקין"
    | _, _ => .halt 403 "CSRF token חסר"

/-- `authenticate` (middleware/auth.ts lines 17–69): resolves the session
    or halts with 401. -/
def authenticate (req : HttpReq) (eph : EphState) (now : Nat) :
    Except HttpResp (UserRec × EphState) :=
  match truthy (extractSessionToken req) with
  | none => .error { status := 401, message := some "לא מחובר למערכת" }
  | some tok =>
    match getSession eph tok now with
    | (none, eph') =>
      let _ := eph'
      .error { status := 401, message := some "סשן פג תוקף או לא תקין" }
    | (some user, eph') => .ok (user, eph')

/-! ## Rate limiting (src/utils/auth.ts lines 258–323) -/

/-- A fallback rate-limit entry.  The source keeps the running count as a
    numeric string in `inMemoryStorage` (`item.data`, read back with
    `parseInt`); it is modelled by its numeric value. -/
structure RLItem where
  count : Nat
  expiresAt : Nat
  deriving Repr, DecidableEq

abbrev MemRL := List (String × RLItem)

/-- `checkRateLimit`, in-memory branch: a missing or expired entry is
    replaced by a fresh count of 1 whose expiry is `now + windowMs` and the
    call is allowed; otherwise the count is incremented, the expiry is kept
    as it was, and the call is allowed iff the new count is at most the
    limit. -/
def memCheckRateLimit (m : MemRL) (now : Nat) (key : String)
    (limit : Nat) (windowMs : Nat) : Bool × MemRL :=
  match m.lookup key with
  | none => (true, assocSet m key { count := 1, expiresAt := now + windowMs })
  | some item =>
    if now > item.expiresAt then
      (true, assocSet m key { count := 1, expiresAt := now + windowMs })
    else
      let count := item.count + 1
      (decide (count ≤ limit),
        assocSet m key { count := count, expiresAt := item.expiresAt })

/-- A Redis rate-limit entry: `INCR` creates the key without a TTL;
    `EXPIRE` then attaches one. -/
structure RedisRLItem where
  count : Nat
  expiresAt : Option Nat
  deriving Repr, DecidableEq

abbrev RedisRL := List (String × RedisRLItem)

/-- Is a Redis key still alive at `now`? (Keys with a TTL vanish once it
    elapses.) -/
def redisRLLive (now : Nat) (it : RedisRLItem) : Bool :=
  match it.expiresAt with
  | none => true
  | some e => decide (now < e)

/-- `redis.incr`: create-at-1 for absent (or expired) keys, else +1. -/
def redisIncr (r : RedisRL) (now : Nat) (key : String) : Nat × RedisRL :=
  match r.lookup key with
  | some it =>
    if redisRLLive now it then
      (it.count + 1, assocSet r key { count := it.count + 1, expiresAt := it.expiresAt })
    else (1, assocSet r key { count := 1, expiresAt := none })
  | none => (1, assocSet r key { count := 1, expiresAt := none })

/-- `redis.expire key seconds`. -/
def redisExpire (r : RedisRL) (key : String) (seconds : Nat) (now : Nat) : RedisRL :=
  match r.lookup key with
  | some it => assocSet r key { it with expiresAt := some (now + seconds * 1000) }
  | none => r

/-- `checkRateLimit`, Redis branch: `INCR rate-limit:<key>`; if this
    created the key (`current === 1`), `EXPIRE` it to the window; allowed
    iff `current <= limit`. -/
def redisCheckRateLimit (r : RedisRL) (now : Nat) (key : String)
    (limit : Nat) (windowMs : Nat) : Bool × RedisRL :=
  let pref := "rate-limit:" ++ key
  let res := redisIncr r now pref
  let r2 := if res.1 = 1 then redisExpire res.2 pref (windowMs / 1000) now else res.2
  (decide (res.1 ≤ limit), r2)

/-- The two rate-limit keyspaces (the source keeps the fallback counters in
    `inMemoryStorage` and the Redis counters under `rate-limit:*`). -/
structure RLState where
  mem : MemRL
  redis : RedisRL
  deriving Repr, DecidableEq

/-- `checkRateLimit` dispatching on `getStorage()`. -/
def checkRateLimit (b : Backend) (rl : RLState) (now : Nat) (key : String)
    (limit : Nat) (windowMs : Nat) : Bool × RLState :=
  match b with
  | .redis =>
    let res := redisCheckRateLimit rl.redis now key limit windowMs
    (res.1, { rl with redis := res.2 })
  | .memory =>
    let res := memCheckRateLimit rl.mem now key limit windowMs
    (res.1, { rl with mem := res.2 })

/-! ## The tasks-router pipeline for PATCH /tasks/:id (routes/tasks.ts)

The router mounts `authenticate` (line 26) and `writeRateLimit =
rateLimit(30, 60*1000)` (line 30) ahead of the PATCH handler (line 173).
`csrfProtection` is exported by middleware/auth.ts but mounted on no
router. -/

/-- A PATCH /tasks/:id request as processed by the mounted middleware
    chain: authenticate → writeRateLimit → handler. -/
def patchTasksPipeline (b : Backend) (eph : EphState) (rl : RLState)
    (st : SysState) (req : HttpReq) (taskId : String) (body : UpdateBody)
    (now : Nat) : SysState × RLState × HttpResp :=
  match authenticate req eph now with
  | .error resp => (st, rl, resp)
  | .ok (user, _) =>
    let res := checkRateLimit b rl now (req.ip ++ ":" ++ req.path) 30 60000
    if !res.1 then
      (st, res.2, { status := 429, message := some "יותר מדי בקשות, נסה שוב מאוחר יותר" })
    else
      let out := patchTaskRoute st taskId body req.ifMatch user
      (out.1, res.2, out.2)

/-! ## Forgot password (routes/auth.ts POST /auth/forgot,
     authService.forgotPassword)

`AuthService.forgotPassword` returns silently when no account matches; when
one does, it stores a reset token and sends an email (which may throw).  The
route replies 204 on success and — deliberately — also 204 on any service
error, and 400 only on schema validation failure. -/

/-- `AuthService.forgotPassword`, observed through success/thrown. -/
def forgotPasswordService (accountExists : Bool) (emailSendFails : Bool) :
    Except Unit Unit :=
  if accountExists then
    if emailSendFails then .error () else .ok ()
  else .ok ()

/-- The POST /auth/forgot handler. -/
def forgotRoute (emailValidates : Bool) (accountExists : Bool)
    (emailSendFails : Bool) : HttpResp :=
  if ! emailValidates then { status := 400, message := some "נתונים לא תקינים" }
  else
    match forgotPasswordService accountExists emailSendFails with
    | .ok _ => { status := 204, message := none }
    | .error _ => { status := 204, message := none }

/-! ## Iterated calls (for the version-counting and rate-limit-window
properties) -/

/-- One caller-visible `updateTask` call: patch, editor, precondition. -/
structure UpdateReq where
  patch : UpdateTaskData
  editor : UserRec
  expectedVersion : Option Nat

/-- A sequence of `updateTask` calls against one task, each applied to the
    state left by the previous call (failed calls leave the state
    unchanged, as the route's try/catch does); returns the final state and
    the number of successful updates. -/
def runUpdates (st : SysState) (tid : TaskId) : List UpdateReq → SysState × Nat
  | [] => (st, 0)
  | r :: rs =>
    match updateTask st tid r.patch r.editor r.expectedVersion with
    | .ok (st', _) =>
      let rest := runUpdates st' tid rs
      (rest.1, rest.2 + 1)
    | .error _ => runUpdates st tid rs

/-- A sequence of fallback-backend rate-limit checks for one key at the
    given times; returns the allow/deny verdicts in order and the final
    counter state. -/
def memRun (key : String) (limit windowMs : Nat) (m : MemRL) :
    List Nat → List Bool × MemRL
  | [] => ([], m)
  | t :: ts =>
    let res := memCheckRateLimit m t key limit windowMs
    let rest := memRun key limit windowMs res.2 ts
    (res.1 :: rest.1, rest.2)

/-- A sequence of Redis-backend rate-limit checks for one key. -/
def redisRun (key : String) (limit windowMs : Nat) (r : RedisRL) :
    List Nat → List Bool × RedisRL
  | [] => ([], r)
  | t :: ts =>
    let res := redisCheckRateLimit r t key limit windowMs
    let rest := redisRun key limit windowMs res.2 ts
    (res.1 :: rest.1, rest.2)

/-- The expected verdicts of `n` in-window calls that start from a counter
    already at `c`: the i-th of them sees the count reach `c+i` and is
    allowed iff that is at most the limit. -/
def rlFlags (limit : Nat) : Nat → Nat → List Bool
  | _, 0 => []
  | c, n + 1 => decide (c + 1 ≤ limit) :: rlFlags limit (c + 1) n

/-! ## Concrete fixtures for witnesses and counterexamples -/

def aliceUser : UserRec :=
  { id := "u-alice", email := "alice@example.com", name := "Alice" }

def danaUser : UserRec :=
  { id := "u-dana", email := "dana@example.com", name := "Dana" }

def fixtureTaskId : TaskId := "507f1f77bcf86cd799439011"

def fixtureTask : StoredTask :=
  { id := fixtureTaskId, title := "A", description := some "d"
    createdBy := "u-alice", updatedBy := none, assignees := []
    version := 1, isDeleted := false, createdAt := 0, updatedAt := 0 }

def baseState : SysState :=
  { tasks := [fixtureTask], stars := [], audits := []
    users := [aliceUser, danaUser], cache := [], events := []
    undoTokens := [], nextId := 0, now := 5 }

def titlePatch : UpdateTaskData :=
  { title := some "B", description := none, assignees := none }

def starredFilters : TaskFilters :=
  { search := "", page := 1, limit := 20, sortBy := .updatedAt
    sortOrder := .desc, context := .starred }

/-- The successful results of each mutation on `baseState`, extracted so
    the witnesses can name them. -/
def updatedFixture : SysState × StoredTask :=
  match updateTask baseState fixtureTaskId titlePatch danaUser none with
  | .ok p => p
  | .error _ => (baseState, fixtureTask)

def deletedFixture : SysState × String :=
  match deleteTask baseState fixtureTaskId danaUser with
  | .ok p => p
  | .error _ => (baseState, "")

def duplicatedFixture : SysState × StoredTask :=
  match duplicateTask baseState fixtureTaskId danaUser with
  | .ok p => p
  | .error _ => (baseState, fixtureTask)

def assignedFixture : SysState :=
  match assignSelfToTask baseState fixtureTaskId danaUser with
  | .ok s => s
  | .error _ => baseState

def starredFixture : SysState :=
  match addStar baseState fixtureTaskId danaUser with
  | .ok s => s
  | .error _ => baseState

def fixtureSessionToken : String := "sess-1"

def fixtureEph : EphState :=
  { redisKV := [], memKV := []
    sessions := [("session:" ++ fixtureSessionToken,
      { user := danaUser, expiresAt := 100 })] }

def emptyEph : EphState := { redisKV := [], memKV := [], sessions := [] }

def emptyRL : RLState := { mem := [], redis := [] }

def fixturePatchReq : HttpReq :=
  { method := "PATCH", ip := "1.2.3.4"
    path := "/" ++ fixtureTaskId
    cookieSession := some fixtureSessionToken, bearer := none
    csrfHeader := none, ifMatch := none }

def titleBody : UpdateBody :=
  { title := some "B", description := none, assignees := none }

def assigneesPatch : UpdateTaskData :=
  { title := none, description := none, assignees := some ["u-dana"] }

def updatedAssigneesFixture : SysState × StoredTask :=
  match updateTask baseState fixtureTaskId assigneesPatch aliceUser none with
  | .ok p => p
  | .error _ => (baseState, fixtureTask)

/-! # Theorems

Helper lemmas first, then one theorem (plus witness or counterexample) per
claim of the specification. -/

/-! ## Helper lemmas -/

/-- `find?` after an in-place row update: if the row matching `p` is `c`
    and updating keeps the predicate true, the updated table's first match
    is the updated row. -/
theorem find?_map_update {α : Type} (p : α → Bool) (g : α → α) (l : List α)
    (c : α) (h : l.find? p = some c) (hg : p (g c) = true) :
    (l.map (fun x => if p x then g x else x)).find? p = some (g c) := by
  induction l with
  | nil => simp at h
  | cons x xs ih =>
    by_cases hx : p x = true
    · rw [List.find?_cons_of_pos _ hx] at h
      injection h with hc
      subst hc
      simp only [List.map_cons, if_pos hx]
      exact List.find?_cons_of_pos _ hg
    · rw [List.find?_cons_of_neg _ hx] at h
      simp only [List.map_cons, if_neg hx]
      rw [List.find?_cons_of_neg _ hx]
      exact ih h

/-- Looking up a key that the filter predicate condemns yields nothing. -/
theorem lookup_filter_none {β : Type} (l : List (String × β)) (k : String)
    (pred : String → Bool) (hk : pred k = true) :
    (l.filter (fun kv => ! pred kv.1)).lookup k = none := by
  induction l with
  | nil => rfl
  | cons x xs ih =>
    by_cases hx : pred x.1 = true
    · simp only [List.filter_cons, hx, Bool.not_true, ite_false]
      exact ih
    · have hx' : (! pred x.1) = true := by
        simp [Bool.not_eq_true] at hx
        simp [hx]
      simp only [List.filter_cons, hx', ite_true]
      have hkx : (k == x.1) = false := by
        rcases eq_or_ne k x.1 with hkx | hkx
        · exact absurd (hkx ▸ hk) hx
        · simp [hkx]
      simp [List.lookup, hkx, ih]

/-- Every `generateCacheKey` lives in the `tasks:search:*` keyspace. -/
theorem generateCacheKey_prefixed (f : TaskFilters) (u : UserRec) :
    hasTaskCachePrefix (generateCacheKey f u) = true := by
  unfold generateCacheKey hasTaskCachePrefix
  simp only [String.append_assoc]
  have h : ∀ s : String,
      SEARCH_CACHE_PREFIX.data.isPrefixOf (SEARCH_CACHE_PREFIX ++ s).data = true := by
    intro s
    have : (SEARCH_CACHE_PREFIX ++ s).data = SEARCH_CACHE_PREFIX.data ++ s.data := by
      simp [String.data_append]
    rw [this]
    simp [List.isPrefixOf_iff_prefix]
  exact h _

/-- After a full cache invalidation, every list() cache lookup misses. -/
theorem invalidated_lookup_none (cache : List (String × PaginatedResponse))
    (f : TaskFilters) (u : UserRec) :
    (invalidateTaskCache cache).lookup (generateCacheKey f u) = none := by
  unfold invalidateTaskCache
  exact lookup_filter_none cache _ hasTaskCachePrefix (generateCacheKey_prefixed f u)

/-- `getTasks` on a missed key returns the direct computation over the
    current store. -/
theorem getTasks_fresh (st : SysState) (f : TaskFilters) (u : UserRec)
    (h : st.cache.lookup (generateCacheKey f u) = none) :
    (getTasks st f u).2 = computeGetTasks st f u := by
  simp [getTasks, h]

/-- What a successful `updateTask` does to the stored row: the task stays
    findable and active, its version is exactly one higher, and every field
    the patch omits is untouched. -/
theorem updateTask_ok_effect (st : SysState) (tid : TaskId)
    (d : UpdateTaskData) (u : UserRec) (ev : Option Nat)
    (st' : SysState) (t' t : StoredTask)
    (hfind : findActiveTask st tid = some t)
    (h : updateTask st tid d u ev = .ok (st', t')) :
    findActiveTask st' tid = some t' ∧
    t'.version = t.version + 1 ∧
    t'.id = t.id ∧ t'.isDeleted = t.isDeleted ∧
    (d.title = none → t'.title = t.title) ∧
    (d.description = none → t'.description = t.description) ∧
    (d.assignees = none → t'.assignees = t.assignees) ∧
    st'.cache = invalidateTaskCache st.cache := by
  have hfind2 : st.tasks.find? (fun x => x.id == tid && !x.isDeleted) = some t := hfind
  have hp := List.find?_some hfind2
  simp only [updateTask, hfind] at h
  by_cases hg : versionGateFails t.version ev = true
  · simp only [hg, if_true] at h
    cases h
  · simp only [hg, if_false, Bool.false_eq_true] at h
    rw [Except.ok.injEq, Prod.mk.injEq] at h
    obtain ⟨h1, h2⟩ := h
    subst h1
    subst h2
    refine ⟨?_, rfl, rfl, rfl, ?_, ?_, ?_, rfl⟩
    · refine find?_map_update _ _ st.tasks t hfind2 ?_
      simpa using hp
    · intro hd; simp [hd]
    · intro hd; simp only [hd]
    · intro hd; simp [hd]

/-! ## C1 — stale expectedVersion -/

/-- C1 counterexample: `expectedVersion = 0` is supplied and differs from
    the stored version (1), yet `updateTask` does not fail with
    VersionConflict — it applies the patch and bumps the version to 2,
    because the gate `if (expectedVersion && ...)` treats `0` as absent. -/
theorem C1_counterexample :
    (0 : Nat) ≠ fixtureTask.version ∧
    updateTask baseState fixtureTaskId titlePatch danaUser (some 0) ≠
      .error .versionConflict ∧
    (findTask (updateTaskRun baseState fixtureTaskId titlePatch danaUser (some 0))
        fixtureTaskId).map StoredTask.version = some 2 := by
  refine ⟨by decide, by decide, by decide⟩

/-- C1 (amended): whenever the task exists and is Active and the supplied
    `expectedVersion` is **non-zero** and differs from the stored version,
    `updateTask` fails with VersionConflict and the stored state is exactly
    the input state — no field modified, version not incremented, no audit
    entry appended, no event published. -/
theorem C1_stale_version_rejected (st : SysState) (tid : TaskId)
    (d : UpdateTaskData) (u : UserRec) (t : StoredTask) (v : Nat)
    (hfind : findActiveTask st tid = some t)
    (hv : v ≠ 0) (hne : t.version ≠ v) :
    updateTask st tid d u (some v) = .error .versionConflict ∧
    updateTaskRun st tid d u (some v) = st := by
  have hgate : versionGateFails t.version (some v) = true := by
    simp only [versionGateFails, Bool.and_eq_true, bne_iff_ne]
    exact ⟨hv, hne⟩
  constructor
  · simp [updateTask, hfind, hgate]
  · simp [updateTaskRun, updateTask, hfind, hgate]

/-- Witness for C1: the concrete fixture task has version 1; an update with
    `expectedVersion = 5` is rejected with VersionConflict and leaves the
    state untouched. -/
theorem C1_stale_version_rejected_witness :
    findActiveTask baseState fixtureTaskId = some fixtureTask ∧
    (5 : Nat) ≠ 0 ∧ fixtureTask.version ≠ 5 ∧
    (updateTask baseState fixtureTaskId titlePatch danaUser (some 5) =
        .error .versionConflict ∧
      updateTaskRun baseState fixtureTaskId titlePatch danaUser (some 5) = baseState) :=
  ⟨by decide, by decide, by decide,
    C1_stale_version_rejected baseState fixtureTaskId titlePatch danaUser
      fixtureTask 5 (by decide) (by decide) (by decide)⟩

/-! ## C2 — cache invalidation on mutations -/

/-- A successful `updateTask` invalidates the whole query cache. -/
theorem updateTask_ok_cache (st : SysState) (tid : TaskId) (d : UpdateTaskData)
    (u : UserRec) (ev : Option Nat) (st' : SysState) (t' : StoredTask)
    (h : updateTask st tid d u ev = .ok (st', t')) :
    st'.cache = invalidateTaskCache st.cache := by
  unfold updateTask at h
  split at h
  · cases h
  · split at h
    · cases h
    · rw [Except.ok.injEq, Prod.mk.injEq] at h
      obtain ⟨h1, _⟩ := h
      subst h1
      rfl

/-- A successful `deleteTask` invalidates the whole query cache. -/
theorem deleteTask_ok_cache (st : SysState) (tid : TaskId) (u : UserRec)
    (st' : SysState) (tok : String)
    (h : deleteTask st tid u = .ok (st', tok)) :
    st'.cache = invalidateTaskCache st.cache := by
  unfold deleteTask at h
  split at h
  · cases h
  · split at h
    · cases h
    · rw [Except.ok.injEq, Prod.mk.injEq] at h
      obtain ⟨h1, _⟩ := h
      subst h1
      rfl

/-- `duplicateTask` leaves the query cache exactly as it was (no
    invalidation in the source). -/
theorem duplicateTask_ok_cache (st : SysState) (tid : TaskId) (u : UserRec)
    (st' : SysState) (t' : StoredTask)
    (h : duplicateTask st tid u = .ok (st', t')) :
    st'.cache = st.cache := by
  unfold duplicateTask at h
  split at h
  · cases h
  · split at h
    · cases h
    · rw [Except.ok.injEq, Prod.mk.injEq] at h
      obtain ⟨h1, _⟩ := h
      subst h1
      rfl

/-- `assignSelfToTask` leaves the query cache exactly as it was (no
    invalidation in the source, in either the no-op or the mutating
    branch). -/
theorem assignSelf_ok_cache (st : SysState) (tid : TaskId) (u : UserRec)
    (st' : SysState)
    (h : assignSelfToTask st tid u = .ok st') :
    st'.cache = st.cache := by
  unfold assignSelfToTask at h
  split at h
  · cases h
  · split at h
    · cases h
    · split at h
      · rw [Except.ok.injEq] at h
        subst h
        rfl
      · rw [Except.ok.injEq] at h
        subst h
        rfl

/-- `addStar` leaves the query cache exactly as it was. -/
theorem addStar_ok_cache (st : SysState) (tid : TaskId) (u : UserRec)
    (st' : SysState)
    (h : addStar st tid u = .ok st') :
    st'.cache = st.cache := by
  unfold addStar at h
  split at h
  · cases h
  · split at h
    · cases h
    · split at h
      · rw [Except.ok.injEq] at h
        subst h
        rfl
      · rw [Except.ok.injEq] at h
        subst h
        rfl

/-- `removeStar` leaves the query cache exactly as it was. -/
theorem removeStar_cache (st : SysState) (tid : TaskId) (u : UserRec) :
    (removeStar st tid u).cache = st.cache := by
  by_cases hc : ((st.stars.filter
      (fun p => ! (p.1 == tid && p.2 == u.id))).length == st.stars.length) = true
  · simp only [removeStar]
    rw [if_pos hc]
  · simp only [removeStar]
    rw [if_neg (by simpa using hc)]

/-- C2 counterexample: a starred-context list() is cached; `addStar` (which
    does not invalidate the cache) then stars the fixture task; repeating
    the identical list() returns the pre-mutation cached empty result even
    though computing it directly from the mutated store yields the newly
    starred task. -/
theorem C2_counterexample :
    (getTasks
        (match addStar (getTasks baseState starredFilters aliceUser).1
            fixtureTaskId aliceUser with
          | .ok s => s
          | .error _ => (getTasks baseState starredFilters aliceUser).1)
        starredFilters aliceUser).2.items = [] ∧
    (computeGetTasks
        (match addStar (getTasks baseState starredFilters aliceUser).1
            fixtureTaskId aliceUser with
          | .ok s => s
          | .error _ => (getTasks baseState starredFilters aliceUser).1)
        starredFilters aliceUser).items ≠ [] := by
  refine ⟨by decide, by decide⟩

/-- C2 (amended): create, update and delete invalidate every cached list()
    entry as part of the mutation — any list() issued afterwards misses the
    cache and equals the direct computation over the mutated store — while
    duplicate, assign-self, star add and star remove leave the query cache
    untouched, so a list() after those mutations may be served pre-mutation
    cached data. -/
theorem C2_cache_invalidation_per_operation
    (st : SysState) (d : CreateTaskData) (cu : UserRec)
    (tid : TaskId) (p : UpdateTaskData) (ev : Option Nat)
    (stU : SysState) (tU : StoredTask) (stD : SysState) (tok : String)
    (stDup : SysState) (tDup : StoredTask) (stA stS : SysState)
    (f : TaskFilters) (viewer : UserRec)
    (hU : updateTask st tid p cu ev = .ok (stU, tU))
    (hD : deleteTask st tid cu = .ok (stD, tok))
    (hDup : duplicateTask st tid cu = .ok (stDup, tDup))
    (hA : assignSelfToTask st tid cu = .ok stA)
    (hS : addStar st tid cu = .ok stS) :
    ((getTasks (createTask st d cu).1 f viewer).2 =
        computeGetTasks (createTask st d cu).1 f viewer) ∧
    ((getTasks stU f viewer).2 = computeGetTasks stU f viewer) ∧
    ((getTasks stD f viewer).2 = computeGetTasks stD f viewer) ∧
    stDup.cache = st.cache ∧
    stA.cache = st.cache ∧
    stS.cache = st.cache ∧
    (removeStar st tid cu).cache = st.cache := by
  refine ⟨?_, ?_, ?_, ?_, ?_, ?_, ?_⟩
  · apply getTasks_fresh
    have hc : (createTask st d cu).1.cache = invalidateTaskCache st.cache := rfl
    rw [hc]
    exact invalidated_lookup_none st.cache f viewer
  · apply getTasks_fresh
    rw [updateTask_ok_cache st tid p cu ev stU tU hU]
    exact invalidated_lookup_none st.cache f viewer
  · apply getTasks_fresh
    rw [deleteTask_ok_cache st tid cu stD tok hD]
    exact invalidated_lookup_none st.cache f viewer
  · exact duplicateTask_ok_cache st tid cu stDup tDup hDup
  · exact assignSelf_ok_cache st tid cu stA hA
  · exact addStar_ok_cache st tid cu stS hS
  · exact removeStar_cache st tid cu

/-- Witness for C2 (amended): on the concrete fixture every one of the five
    mutations succeeds, and the conclusions hold at the starred-context
    query of the fixture viewer. -/
theorem C2_cache_invalidation_per_operation_witness :
    updateTask baseState fixtureTaskId titlePatch danaUser none =
        .ok (updatedFixture.1, updatedFixture.2) ∧
    deleteTask baseState fixtureTaskId danaUser =
        .ok (deletedFixture.1, deletedFixture.2) ∧
    duplicateTask baseState fixtureTaskId danaUser =
        .ok (duplicatedFixture.1, duplicatedFixture.2) ∧
    assignSelfToTask baseState fixtureTaskId danaUser = .ok assignedFixture ∧
    addStar baseState fixtureTaskId danaUser = .ok starredFixture ∧
    (((getTasks (createTask baseState
          { title := "x", description := none } danaUser).1
          starredFilters aliceUser).2 =
        computeGetTasks (createTask baseState
          { title := "x", description := none } danaUser).1
          starredFilters aliceUser) ∧
      ((getTasks updatedFixture.1 starredFilters aliceUser).2 =
        computeGetTasks updatedFixture.1 starredFilters aliceUser) ∧
      ((getTasks deletedFixture.1 starredFilters aliceUser).2 =
        computeGetTasks deletedFixture.1 starredFilters aliceUser) ∧
      duplicatedFixture.1.cache = baseState.cache ∧
      assignedFixture.cache = baseState.cache ∧
      starredFixture.cache = baseState.cache ∧
      (removeStar baseState fixtureTaskId danaUser).cache = baseState.cache) :=
  ⟨by decide, by decide, by decide, by decide, by decide,
    C2_cache_invalidation_per_operation baseState
      { title := "x", description := none } danaUser fixtureTaskId titlePatch
      none updatedFixture.1 updatedFixture.2 deletedFixture.1
      deletedFixture.2 duplicatedFixture.1 duplicatedFixture.2
      assignedFixture starredFixture starredFilters aliceUser
      (by decide) (by decide) (by decide) (by decide) (by decide)⟩

/-! ## C3 — CSRF validation before mutations -/

/-- C3 (code bug): the tasks router mounts only `authenticate` and the
    write rate limiter — `csrfProtection` is exported by the middleware
    module but mounted on no router — so a PATCH /tasks/:id mutation
    carrying a valid session and **no** CSRF header is applied (HTTP 200,
    stored version bumped 1 → 2), even though `csrfProtection` evaluated on
    that very request would have halted it with 403 before the mutation. -/
theorem C3_mutation_applied_without_csrf :
    (patchTasksPipeline .memory fixtureEph emptyRL baseState fixturePatchReq
        fixtureTaskId titleBody 5).2.2.status = 200 ∧
    (findTask (patchTasksPipeline .memory fixtureEph emptyRL baseState
        fixturePatchReq fixtureTaskId titleBody 5).1 fixtureTaskId).map
        StoredTask.version = some 2 ∧
    fixturePatchReq.csrfHeader = none ∧
    csrfProtection fixturePatchReq fixtureEph = .halt 403 "CSRF token חסר" := by
  refine ⟨by decide, by decide, by decide, by decide⟩

/-! ## C4 — CSRF store/validate across backends -/

/-- C4 (code bug): with the fallback backend selected
    (`REDIS_DISABLED = 'true'` makes `getStorage` return the in-memory
    store), `storeCSRFToken` lands the token in the in-memory map — a
    fallback `getValue` read sees it — yet `validateCSRFToken` of exactly
    the stored token returns `false`, because validation always reads Redis
    directly.  Under the Redis backend the store/validate round-trip
    behaves as specified (`true` iff the submitted token equals the stored
    one). -/
theorem C4_csrf_backend_mismatch :
    getStorage true true = Backend.memory ∧
    memGetValue (storeCSRFToken .memory emptyEph "tok-1" fixtureSessionToken 0)
        ("csrf:" ++ fixtureSessionToken) 0 = some "tok-1" ∧
    validateCSRFToken (storeCSRFToken .memory emptyEph "tok-1" fixtureSessionToken 0)
        "tok-1" fixtureSessionToken = false ∧
    validateCSRFToken (storeCSRFToken .redis emptyEph "tok-1" fixtureSessionToken 0)
        "tok-1" fixtureSessionToken = true ∧
    validateCSRFToken (storeCSRFToken .redis emptyEph "tok-1" fixtureSessionToken 0)
        "tok-2" fixtureSessionToken = false := by
  refine ⟨by decide, by decide, by decide, by decide, by decide⟩

/-! ## C5 — version arithmetic -/

/-- If nothing in the table matches `p` and `q` implies `p`, nothing
    matches `q` either. -/
theorem find?_none_of_imp {α : Type} (p q : α → Bool) (l : List α)
    (h : l.find? p = none) (himp : ∀ x, q x = true → p x = true) :
    l.find? q = none := by
  rw [List.find?_eq_none] at h ⊢
  intro x hx hq
  exact h x hx (himp x hq)

/-- `find?` over an append skips a prefix with no match. -/
theorem find?_append_none {α : Type} (p : α → Bool) (l1 l2 : List α)
    (h : l1.find? p = none) :
    (l1 ++ l2).find? p = l2.find? p := by
  induction l1 with
  | nil => rfl
  | cons x xs ih =>
    by_cases hx : p x = true
    · rw [List.find?_cons_of_pos _ hx] at h
      cases h
    · rw [List.find?_cons_of_neg _ hx] at h
      simp only [List.cons_append]
      rw [List.find?_cons_of_neg _ hx]
      exact ih h

/-- Over any run of update calls against one active task, the final stored
    version is the initial version plus the number of successful calls. -/
theorem runUpdates_version (tid : TaskId) (reqs : List UpdateReq) :
    ∀ (st : SysState) (t : StoredTask), findActiveTask st tid = some t →
      (findActiveTask (runUpdates st tid reqs).1 tid).map StoredTask.version =
        some (t.version + (runUpdates st tid reqs).2) := by
  induction reqs with
  | nil =>
    intro st t h
    simp [runUpdates, h]
  | cons r rs ih =>
    intro st t h
    simp only [runUpdates]
    cases hu : updateTask st tid r.patch r.editor r.expectedVersion with
    | error e =>
      simpa using ih st t h
    | ok pr =>
      obtain ⟨st1, t1⟩ := pr
      obtain ⟨he, hv, _, _, _, _, _, _⟩ :=
        updateTask_ok_effect st tid r.patch r.editor r.expectedVersion
          st1 t1 t h hu
      have h2 := ih st1 t1 he
      dsimp only
      rw [h2, hv]
      congr 1
      omega

/-- C5: `createTask` stores version 1; after a run with N successful
    updates the stored version is `1 + N`; every single successful update
    adds exactly 1; assign-self is a complete no-op when the actor is
    already assigned and adds exactly 1 when it actually assigns; and
    soft-delete leaves the version unchanged. -/
theorem C5_version_arithmetic (st : SysState) (d : CreateTaskData)
    (cu : UserRec) (reqs : List UpdateReq)
    (hfresh : findTask st (freshId st) = none) :
    (createTask st d cu).2.version = 1 ∧
    ((findActiveTask
        (runUpdates (createTask st d cu).1 (createTask st d cu).2.id reqs).1
        (createTask st d cu).2.id).map StoredTask.version =
      some (1 +
        (runUpdates (createTask st d cu).1 (createTask st d cu).2.id reqs).2)) ∧
    (∀ tid p ev st' t' t, findActiveTask st tid = some t →
      updateTask st tid p cu ev = .ok (st', t') →
      t'.version = t.version + 1) ∧
    (∀ tid t, findTask st tid = some t → t.isDeleted = false →
      t.assignees.contains cu.id = true →
      assignSelfToTask st tid cu = .ok st) ∧
    (∀ tid t st', findTask st tid = some t → t.isDeleted = false →
      t.assignees.contains cu.id = false →
      assignSelfToTask st tid cu = .ok st' →
      (findTask st' tid).map StoredTask.version = some (t.version + 1)) ∧
    (∀ tid t st' tok, findTask st tid = some t →
      deleteTask st tid cu = .ok (st', tok) →
      (findTask st' tid).map StoredTask.version = some t.version) := by
  refine ⟨rfl, ?_, ?_, ?_, ?_, ?_⟩
  · -- the created task is active in the post-creation state
    have hnew : findActiveTask (createTask st d cu).1 (createTask st d cu).2.id =
        some (createTask st d cu).2 := by
      show ((st.tasks ++ [(createTask st d cu).2]).find?
        (fun x => x.id == (createTask st d cu).2.id && !x.isDeleted)) =
        some (createTask st d cu).2
      rw [find?_append_none _ st.tasks _ (find?_none_of_imp _ _ st.tasks hfresh ?_)]
      · rw [List.find?_cons_of_pos]
        simp only [Bool.and_eq_true, beq_self_eq_true, true_and,
          Bool.not_eq_true']
        rfl
      · intro x hx
        simp only [Bool.and_eq_true] at hx
        exact hx.1
    have hrun := runUpdates_version (createTask st d cu).2.id reqs
      (createTask st d cu).1 (createTask st d cu).2 hnew
    rw [hrun]
    rfl
  · intro tid p ev st' t' t hfind hok
    exact (updateTask_ok_effect st tid p cu ev st' t' t hfind hok).2.1
  · intro tid t hfind hdel hcont
    simp only [assignSelfToTask, hfind]
    rw [if_neg (by simp [hdel]), if_pos hcont]
  · intro tid t st' hfind hdel hcont h
    have hfind2 : st.tasks.find? (fun x => x.id == tid) = some t := hfind
    simp only [assignSelfToTask, hfind] at h
    rw [if_neg (by simp [hdel]),
      if_neg (by rw [hcont]; exact Bool.false_ne_true)] at h
    rw [Except.ok.injEq] at h
    subst h
    have hrep := find?_map_update (fun x => x.id == tid)
      (fun x => { x with assignees := t.assignees ++ [cu.id]
                         updatedBy := some cu.id
                         version := t.version + 1
                         updatedAt := st.now })
      st.tasks t hfind2 (by simpa using List.find?_some hfind2)
    simp only [findTask]
    rw [hrep]
    rfl
  · intro tid t st' tok hfind h
    have hfind2 : st.tasks.find? (fun x => x.id == tid) = some t := hfind
    simp only [deleteTask, hfind] at h
    by_cases hdel : t.isDeleted = true
    · simp [hdel] at h
    · rw [if_neg hdel, Except.ok.injEq, Prod.mk.injEq] at h
      obtain ⟨h1, _⟩ := h
      subst h1
      have hrep := find?_map_update (fun x => x.id == tid)
        (fun x => { x with isDeleted := true, updatedAt := st.now })
        st.tasks t hfind2 (by simpa using List.find?_some hfind2)
      simp only [findTask]
      rw [hrep]
      rfl

/-- Witness for C5 on the concrete fixture: a fresh id, one successful and
    one failed update in the run. -/
theorem C5_version_arithmetic_witness :
    findTask baseState (freshId baseState) = none ∧
    ((createTask baseState { title := "x", description := none } aliceUser).2.version = 1 ∧
      ((findActiveTask
          (runUpdates (createTask baseState { title := "x", description := none } aliceUser).1
            (createTask baseState { title := "x", description := none } aliceUser).2.id
            [{ patch := titlePatch, editor := danaUser, expectedVersion := none },
             { patch := titlePatch, editor := aliceUser, expectedVersion := some 7 }]).1
          (createTask baseState { title := "x", description := none } aliceUser).2.id).map
          StoredTask.version =
        some (1 +
          (runUpdates (createTask baseState { title := "x", description := none } aliceUser).1
            (createTask baseState { title := "x", description := none } aliceUser).2.id
            [{ patch := titlePatch, editor := danaUser, expectedVersion := none },
             { patch := titlePatch, editor := aliceUser, expectedVersion := some 7 }]).2)) ∧
      (∀ tid p ev st' t' t, findActiveTask baseState tid = some t →
        updateTask baseState tid p aliceUser ev = .ok (st', t') →
        t'.version = t.version + 1) ∧
      (∀ tid t, findTask baseState tid = some t → t.isDeleted = false →
        t.assignees.contains aliceUser.id = true →
        assignSelfToTask baseState tid aliceUser = .ok baseState) ∧
      (∀ tid t st', findTask baseState tid = some t → t.isDeleted = false →
        t.assignees.contains aliceUser.id = false →
        assignSelfToTask baseState tid aliceUser = .ok st' →
        (findTask st' tid).map StoredTask.version = some (t.version + 1)) ∧
      (∀ tid t st' tok, findTask baseState tid = some t →
        deleteTask baseState tid aliceUser = .ok (st', tok) →
        (findTask st' tid).map StoredTask.version = some t.version)) :=
  ⟨by decide,
    C5_version_arithmetic baseState { title := "x", description := none }
      aliceUser
      [{ patch := titlePatch, editor := danaUser, expectedVersion := none },
       { patch := titlePatch, editor := aliceUser, expectedVersion := some 7 }]
      (by decide)⟩

/-! ## C6 — rate limiter, both backends -/

/-- Reading back the key just written. -/
theorem lookup_assocSet_self {β : Type} (l : List (String × β)) (k : String)
    (v : β) : (assocSet l k v).lookup k = some v := by
  simp [assocSet, List.lookup]

/-- Fallback limiter, missing key: fresh counter, allowed. -/
theorem memCheck_fresh (m : MemRL) (key : String) (limit windowMs t : Nat)
    (h : m.lookup key = none) :
    memCheckRateLimit m t key limit windowMs =
      (true, assocSet m key { count := 1, expiresAt := t + windowMs }) := by
  simp [memCheckRateLimit, h]

/-- Fallback limiter, expired key: counter reset, allowed. -/
theorem memCheck_expired (m : MemRL) (key : String) (limit windowMs t c e : Nat)
    (h : m.lookup key = some { count := c, expiresAt := e }) (he : e < t) :
    memCheckRateLimit m t key limit windowMs =
      (true, assocSet m key { count := 1, expiresAt := t + windowMs }) := by
  simp [memCheckRateLimit, h, he]

/-- Fallback limiter, live key: count +1, expiry untouched, allowed iff the
    new count fits. -/
theorem memCheck_live (m : MemRL) (key : String) (limit windowMs t c e : Nat)
    (h : m.lookup key = some { count := c, expiresAt := e }) (he : t ≤ e) :
    memCheckRateLimit m t key limit windowMs =
      (decide (c + 1 ≤ limit), assocSet m key { count := c + 1, expiresAt := e }) := by
  have : ¬ t > e := by omega
  simp [memCheckRateLimit, h, this]

/-- Fallback limiter: a run of in-window calls over a live counter yields
    the expected verdicts and adds one per call without touching the
    expiry. -/
theorem memRun_live (key : String) (limit windowMs : Nat) (ts : List Nat) :
    ∀ (m : MemRL) (c e : Nat),
      m.lookup key = some { count := c, expiresAt := e } →
      (∀ t ∈ ts, t ≤ e) →
      (memRun key limit windowMs m ts).1 = rlFlags limit c ts.length ∧
      (memRun key limit windowMs m ts).2.lookup key =
        some { count := c + ts.length, expiresAt := e } := by
  induction ts with
  | nil =>
    intro m c e h _
    exact ⟨rfl, by simpa using h⟩
  | cons t ts ih =>
    intro m c e h hw
    have ht : t ≤ e := hw t (List.mem_cons_self t ts)
    have hstep := memCheck_live m key limit windowMs t c e h ht
    obtain ⟨ih1, ih2⟩ := ih (assocSet m key { count := c + 1, expiresAt := e })
      (c + 1) e (lookup_assocSet_self m key _)
      (fun x hx => hw x (List.mem_cons_of_mem t hx))
    constructor
    · simp only [memRun, hstep, ih1, rlFlags, List.length_cons]
    · simp only [memRun, hstep, ih2, List.length_cons]
      congr 2
      omega

/-- The verdict of the last of `n+1` consecutive in-window calls that
    started from count `c`. -/
theorem rlFlags_getLast (limit : Nat) :
    ∀ (n c : Nat), (rlFlags limit c (n + 1)).getLast? =
      some (decide (c + (n + 1) ≤ limit)) := by
  intro n
  induction n with
  | zero => intro c; rfl
  | succ k ih =>
    intro c
    have hshape : rlFlags limit c (k + 1 + 1) =
        decide (c + 1 ≤ limit) :: rlFlags limit (c + 1) (k + 1) := rfl
    have hshape2 : rlFlags limit (c + 1) (k + 1) =
        decide (c + 2 ≤ limit) :: rlFlags limit (c + 2) k := rfl
    rw [hshape, hshape2, List.getLast?_cons_cons, ← hshape2, ih (c + 1)]
    have harith : c + 1 + (k + 1) = c + (k + 1 + 1) := by omega
    rw [harith]

/-- The tail of a cons holds its last element when nonempty. -/
theorem getLast?_cons_of_ne {α : Type} (a : α) (l : List α) (h : l ≠ []) :
    (a :: l).getLast? = l.getLast? := by
  cases l with
  | nil => cases h rfl
  | cons b bs => rw [List.getLast?_cons_cons]

/-- Redis limiter, missing key: `INCR` creates at 1, `EXPIRE` attaches the
    window. -/
theorem redisCheck_fresh (r : RedisRL) (key : String) (limit windowMs t : Nat)
    (h : r.lookup ("rate-limit:" ++ key) = none) :
    (redisCheckRateLimit r t key limit windowMs).1 = decide (1 ≤ limit) ∧
    (redisCheckRateLimit r t key limit windowMs).2.lookup
        ("rate-limit:" ++ key) =
      some { count := 1, expiresAt := some (t + windowMs / 1000 * 1000) } := by
  constructor
  · simp [redisCheckRateLimit, redisIncr, h]
  · simp only [redisCheckRateLimit, redisIncr, h, if_true, eq_self_iff_true]
    simp [redisExpire, lookup_assocSet_self]

/-- Redis limiter, expired key: `INCR` recreates at 1 and the expiry is
    freshly attached (window reset). -/
theorem redisCheck_expired (r : RedisRL) (key : String) (limit windowMs t c e : Nat)
    (h : r.lookup ("rate-limit:" ++ key) =
      some { count := c, expiresAt := some e }) (he : e ≤ t) :
    (redisCheckRateLimit r t key limit windowMs).1 = decide (1 ≤ limit) ∧
    (redisCheckRateLimit r t key limit windowMs).2.lookup
        ("rate-limit:" ++ key) =
      some { count := 1, expiresAt := some (t + windowMs / 1000 * 1000) } := by
  have hdead : redisRLLive t { count := c, expiresAt := some e } = false := by
    show decide (t < e) = false
    simp only [decide_eq_false_iff_not]
    omega
  constructor
  · simp [redisCheckRateLimit, redisIncr, h, hdead]
  · simp only [redisCheckRateLimit, redisIncr, h, hdead, Bool.false_eq_true,
      if_false, if_true, eq_self_iff_true]
    simp [redisExpire, lookup_assocSet_self]

/-- Redis limiter, live key with a counter at least 1: `INCR` adds one, the
    expiry is not refreshed, allowed iff the new count fits. -/
theorem redisCheck_live (r : RedisRL) (key : String) (limit windowMs t c : Nat)
    (eo : Option Nat)
    (h : r.lookup ("rate-limit:" ++ key) = some { count := c, expiresAt := eo })
    (hlive : redisRLLive t { count := c, expiresAt := eo } = true)
    (hc : 1 ≤ c) :
    (redisCheckRateLimit r t key limit windowMs).1 = decide (c + 1 ≤ limit) ∧
    (redisCheckRateLimit r t key limit windowMs).2.lookup
        ("rate-limit:" ++ key) =
      some { count := c + 1, expiresAt := eo } := by
  constructor
  · simp [redisCheckRateLimit, redisIncr, h, hlive]
  · simp only [redisCheckRateLimit, redisIncr, h, hlive, if_pos rfl, if_true]
    rw [if_neg (by omega)]
    exact lookup_assocSet_self r _ _

/-- Redis limiter: a run of in-window calls over a live counter. -/
theorem redisRun_live (key : String) (limit windowMs : Nat) (ts : List Nat) :
    ∀ (r : RedisRL) (c e : Nat), 1 ≤ c →
      r.lookup ("rate-limit:" ++ key) =
        some { count := c, expiresAt := some e } →
      (∀ t ∈ ts, t < e) →
      (redisRun key limit windowMs r ts).1 = rlFlags limit c ts.length ∧
      (redisRun key limit windowMs r ts).2.lookup ("rate-limit:" ++ key) =
        some { count := c + ts.length, expiresAt := some e } := by
  induction ts with
  | nil =>
    intro r c e _ h _
    exact ⟨rfl, by simpa using h⟩
  | cons t ts ih =>
    intro r c e hc h hw
    have ht : t < e := hw t (List.mem_cons_self t ts)
    have hlive : redisRLLive t { count := c, expiresAt := some e } = true := by
      simp [redisRLLive]
      omega
    obtain ⟨hs1, hs2⟩ := redisCheck_live r key limit windowMs t c (some e) h hlive hc
    obtain ⟨ih1, ih2⟩ := ih (redisCheckRateLimit r t key limit windowMs).2
      (c + 1) e (by omega) hs2
      (fun x hx => hw x (List.mem_cons_of_mem t hx))
    constructor
    · simp only [redisRun, hs1, ih1, rlFlags, List.length_cons]
    · simp only [redisRun, ih2, List.length_cons]
      congr 2
      omega

/-- C6: for both backends, with `1 ≤ limit`: the window expiry is set only
    by the increment that creates (or recreates) the key and later
    in-window increments never refresh it; a call is allowed iff the
    resulting stored count is at most the limit; the first call on a fresh
    key is allowed; running `limit + 1` calls inside one window from a
    fresh key ends with a denial; and a call after the window has elapsed
    resets the counter to 1 with a fresh expiry and is allowed. -/
theorem C6_rate_limiter_fixed_window (key : String) (limit windowMs : Nat)
    (hlim : 1 ≤ limit) :
    -- fallback backend
    ((∀ (m : MemRL) t c e, m.lookup key = some { count := c, expiresAt := e } →
        t ≤ e →
        (memCheckRateLimit m t key limit windowMs).2.lookup key =
          some { count := c + 1, expiresAt := e }) ∧
      (∀ (m : MemRL) t, ∃ it,
        (memCheckRateLimit m t key limit windowMs).2.lookup key = some it ∧
        (memCheckRateLimit m t key limit windowMs).1 = decide (it.count ≤ limit)) ∧
      (∀ (m : MemRL) t, m.lookup key = none →
        (memCheckRateLimit m t key limit windowMs).1 = true) ∧
      (∀ (m : MemRL) t c e, m.lookup key = some { count := c, expiresAt := e } →
        e < t →
        (memCheckRateLimit m t key limit windowMs).1 = true ∧
        (memCheckRateLimit m t key limit windowMs).2.lookup key =
          some { count := 1, expiresAt := t + windowMs }) ∧
      (∀ (m : MemRL) t0 (ts : List Nat), m.lookup key = none →
        ts.length = limit → (∀ t ∈ ts, t ≤ t0 + windowMs) →
        ((memCheckRateLimit m t0 key limit windowMs).1 ::
          (memRun key limit windowMs
            (memCheckRateLimit m t0 key limit windowMs).2 ts).1).getLast? =
          some false)) ∧
    -- Redis backend
    ((∀ (r : RedisRL) t c eo, 1 ≤ c →
        r.lookup ("rate-limit:" ++ key) = some { count := c, expiresAt := eo } →
        redisRLLive t { count := c, expiresAt := eo } = true →
        (redisCheckRateLimit r t key limit windowMs).2.lookup
            ("rate-limit:" ++ key) =
          some { count := c + 1, expiresAt := eo }) ∧
      (∀ (r : RedisRL) t, r.lookup ("rate-limit:" ++ key) = none →
        (redisCheckRateLimit r t key limit windowMs).1 = true ∧
        (redisCheckRateLimit r t key limit windowMs).2.lookup
            ("rate-limit:" ++ key) =
          some { count := 1, expiresAt := some (t + windowMs / 1000 * 1000) }) ∧
      (∀ (r : RedisRL) t c e, r.lookup ("rate-limit:" ++ key) =
          some { count := c, expiresAt := some e } → e ≤ t →
        (redisCheckRateLimit r t key limit windowMs).1 = true ∧
        (redisCheckRateLimit r t key limit windowMs).2.lookup
            ("rate-limit:" ++ key) =
          some { count := 1, expiresAt := some (t + windowMs / 1000 * 1000) }) ∧
      (∀ (r : RedisRL) t0 (ts : List Nat),
        r.lookup ("rate-limit:" ++ key) = none →
        ts.length = limit →
        (∀ t ∈ ts, t < t0 + windowMs / 1000 * 1000) →
        ((redisCheckRateLimit r t0 key limit windowMs).1 ::
          (redisRun key limit windowMs
            (redisCheckRateLimit r t0 key limit windowMs).2 ts).1).getLast? =
          some false)) := by
  refine ⟨⟨?_, ?_, ?_, ?_, ?_⟩, ⟨?_, ?_, ?_, ?_⟩⟩
  · intro m t c e h ht
    rw [memCheck_live m key limit windowMs t c e h ht]
    exact lookup_assocSet_self m key _
  · intro m t
    cases hl : m.lookup key with
    | none =>
      refine ⟨{ count := 1, expiresAt := t + windowMs }, ?_, ?_⟩
      · rw [memCheck_fresh m key limit windowMs t hl]
        exact lookup_assocSet_self m key _
      · rw [memCheck_fresh m key limit windowMs t hl]
        simp [hlim]
    | some it =>
      by_cases he : it.expiresAt < t
      · refine ⟨{ count := 1, expiresAt := t + windowMs }, ?_, ?_⟩
        · rw [memCheck_expired m key limit windowMs t it.count it.expiresAt
            (by simpa using hl) he]
          exact lookup_assocSet_self m key _
        · rw [memCheck_expired m key limit windowMs t it.count it.expiresAt
            (by simpa using hl) he]
          simp [hlim]
      · refine ⟨{ count := it.count + 1, expiresAt := it.expiresAt }, ?_, ?_⟩
        · rw [memCheck_live m key limit windowMs t it.count it.expiresAt
            (by simpa using hl) (by omega)]
          exact lookup_assocSet_self m key _
        · rw [memCheck_live m key limit windowMs t it.count it.expiresAt
            (by simpa using hl) (by omega)]
  · intro m t hl
    rw [memCheck_fresh m key limit windowMs t hl]
  · intro m t c e h he
    rw [memCheck_expired m key limit windowMs t c e h he]
    exact ⟨rfl, lookup_assocSet_self m key _⟩
  · intro m t0 ts hl hlen hw
    rw [memCheck_fresh m key limit windowMs t0 hl]
    obtain ⟨h1, _⟩ := memRun_live key limit windowMs ts
      (assocSet m key { count := 1, expiresAt := t0 + windowMs }) 1
      (t0 + windowMs) (lookup_assocSet_self m key _) hw
    simp only [h1, hlen]
    cases limit with
    | zero => omega
    | succ k =>
      rw [getLast?_cons_of_ne _ _ (by
        have hsh : rlFlags (k + 1) 1 (k + 1) =
            decide (1 + 1 ≤ k + 1) :: rlFlags (k + 1) 2 k := rfl
        rw [hsh]
        simp)]
      cases k with
      | zero => rfl
      | succ k2 =>
        rw [rlFlags_getLast (k2 + 1 + 1) (k2 + 1) 1]
        simp only [Option.some.injEq, decide_eq_false_iff_not]
        omega
  · intro r t c eo hc h hlive
    exact (redisCheck_live r key limit windowMs t c eo h hlive hc).2
  · intro r t hl
    obtain ⟨h1, h2⟩ := redisCheck_fresh r key limit windowMs t hl
    exact ⟨by simp [h1, hlim], h2⟩
  · intro r t c e h he
    obtain ⟨h1, h2⟩ := redisCheck_expired r key limit windowMs t c e h he
    exact ⟨by simp [h1, hlim], h2⟩
  · intro r t0 ts hl hlen hw
    obtain ⟨hf1, hf2⟩ := redisCheck_fresh r key limit windowMs t0 hl
    obtain ⟨h1, _⟩ := redisRun_live key limit windowMs ts
      (redisCheckRateLimit r t0 key limit windowMs).2 1
      (t0 + windowMs / 1000 * 1000) (by omega) hf2 hw
    rw [hf1]
    simp only [h1, hlen]
    cases limit with
    | zero => omega
    | succ k =>
      rw [getLast?_cons_of_ne _ _ (by
        have hsh : rlFlags (k + 1) 1 (k + 1) =
            decide (1 + 1 ≤ k + 1) :: rlFlags (k + 1) 2 k := rfl
        rw [hsh]
        simp)]
      cases k with
      | zero => rfl
      | succ k2 =>
        rw [rlFlags_getLast (k2 + 1 + 1) (k2 + 1) 1]
        simp only [Option.some.injEq, decide_eq_false_iff_not]
        omega

/-- Witness for C6: key "k", limit 2, one-minute window. -/
theorem C6_rate_limiter_fixed_window_witness :
    (1 : Nat) ≤ 2 ∧
    ((∀ (m : MemRL) t c e, m.lookup "k" = some { count := c, expiresAt := e } →
        t ≤ e →
        (memCheckRateLimit m t "k" 2 60000).2.lookup "k" =
          some { count := c + 1, expiresAt := e }) ∧
      (∀ (m : MemRL) t, ∃ it,
        (memCheckRateLimit m t "k" 2 60000).2.lookup "k" = some it ∧
        (memCheckRateLimit m t "k" 2 60000).1 = decide (it.count ≤ 2)) ∧
      (∀ (m : MemRL) t, m.lookup "k" = none →
        (memCheckRateLimit m t "k" 2 60000).1 = true) ∧
      (∀ (m : MemRL) t c e, m.lookup "k" = some { count := c, expiresAt := e } →
        e < t →
        (memCheckRateLimit m t "k" 2 60000).1 = true ∧
        (memCheckRateLimit m t "k" 2 60000).2.lookup "k" =
          some { count := 1, expiresAt := t + 60000 }) ∧
      (∀ (m : MemRL) t0 (ts : List Nat), m.lookup "k" = none →
        ts.length = 2 → (∀ t ∈ ts, t ≤ t0 + 60000) →
        ((memCheckRateLimit m t0 "k" 2 60000).1 ::
          (memRun "k" 2 60000
            (memCheckRateLimit m t0 "k" 2 60000).2 ts).1).getLast? =
          some false)) ∧
    ((∀ (r : RedisRL) t c eo, 1 ≤ c →
        r.lookup ("rate-limit:" ++ "k") = some { count := c, expiresAt := eo } →
        redisRLLive t { count := c, expiresAt := eo } = true →
        (redisCheckRateLimit r t "k" 2 60000).2.lookup ("rate-limit:" ++ "k") =
          some { count := c + 1, expiresAt := eo }) ∧
      (∀ (r : RedisRL) t, r.lookup ("rate-limit:" ++ "k") = none →
        (redisCheckRateLimit r t "k" 2 60000).1 = true ∧
        (redisCheckRateLimit r t "k" 2 60000).2.lookup ("rate-limit:" ++ "k") =
          some { count := 1, expiresAt := some (t + 60000 / 1000 * 1000) }) ∧
      (∀ (r : RedisRL) t c e, r.lookup ("rate-limit:" ++ "k") =
          some { count := c, expiresAt := some e } → e ≤ t →
        (redisCheckRateLimit r t "k" 2 60000).1 = true ∧
        (redisCheckRateLimit r t "k" 2 60000).2.lookup ("rate-limit:" ++ "k") =
          some { count := 1, expiresAt := some (t + 60000 / 1000 * 1000) }) ∧
      (∀ (r : RedisRL) t0 (ts : List Nat),
        r.lookup ("rate-limit:" ++ "k") = none →
        ts.length = 2 →
        (∀ t ∈ ts, t < t0 + 60000 / 1000 * 1000) →
        ((redisCheckRateLimit r t0 "k" 2 60000).1 ::
          (redisRun "k" 2 60000
            (redisCheckRateLimit r t0 "k" 2 60000).2 ts).1).getLast? =
          some false)) :=
  ⟨by decide, C6_rate_limiter_fixed_window "k" 2 60000 (by decide)⟩

/-! ## C7 — update frame property -/

/-- C7: a successful update leaves every field the patch omits exactly as
    it was — in particular an assignees-only patch does not touch title or
    description, and symmetrically for each field. -/
theorem C7_update_patch_frame (st : SysState) (tid : TaskId)
    (d : UpdateTaskData) (u : UserRec) (ev : Option Nat) (st' : SysState)
    (t' t : StoredTask)
    (hfind : findActiveTask st tid = some t)
    (hok : updateTask st tid d u ev = .ok (st', t')) :
    findActiveTask st' tid = some t' ∧
    (d.title = none → t'.title = t.title) ∧
    (d.description = none → t'.description = t.description) ∧
    (d.assignees = none → t'.assignees = t.assignees) ∧
    (d.title = none ∧ d.description = none →
      t'.title = t.title ∧ t'.description = t.description) := by
  obtain ⟨h1, _, _, _, h5, h6, h7, _⟩ :=
    updateTask_ok_effect st tid d u ev st' t' t hfind hok
  exact ⟨h1, h5, h6, h7, fun hp => ⟨h5 hp.1, h6 hp.2⟩⟩

/-- Witness for C7: an assignees-only patch on the fixture task leaves its
    title and description untouched. -/
theorem C7_update_patch_frame_witness :
    findActiveTask baseState fixtureTaskId = some fixtureTask ∧
    updateTask baseState fixtureTaskId assigneesPatch aliceUser none =
      .ok (updatedAssigneesFixture.1, updatedAssigneesFixture.2) ∧
    (findActiveTask updatedAssigneesFixture.1 fixtureTaskId =
        some updatedAssigneesFixture.2 ∧
      (assigneesPatch.title = none →
        updatedAssigneesFixture.2.title = fixtureTask.title) ∧
      (assigneesPatch.description = none →
        updatedAssigneesFixture.2.description = fixtureTask.description) ∧
      (assigneesPatch.assignees = none →
        updatedAssigneesFixture.2.assignees = fixtureTask.assignees) ∧
      (assigneesPatch.title = none ∧ assigneesPatch.description = none →
        updatedAssigneesFixture.2.title = fixtureTask.title ∧
          updatedAssigneesFixture.2.description = fixtureTask.description)) :=
  ⟨by decide, by decide,
    C7_update_patch_frame baseState fixtureTaskId assigneesPatch aliceUser
      none updatedAssigneesFixture.1 updatedAssigneesFixture.2 fixtureTask
      (by decide) (by decide)⟩

/-! ## C8 — description on create -/

/-- C8 counterexample: a create body with a valid one-char title and no
    description (or an empty one) fails validation — `taskSchema` declares
    the description required with min length 1 — so the POST handler
    replies 400 and creates nothing, contradicting the claim that create
    succeeds with an empty description. -/
theorem C8_counterexample :
    taskSchemaParse { title := some "A", description := none } =
      .error (.required "description") ∧
    taskSchemaParse { title := some "A", description := some "" } =
      .error (.tooShort "description") ∧
    (postTaskRoute baseState { title := some "A", description := none }
        aliceUser).2.status = 400 ∧
    (postTaskRoute baseState { title := some "A", description := none }
        aliceUser).1 = baseState := by
  refine ⟨by decide, by decide, by decide, by decide⟩

/-- C8 (amended): on create the description is **required** and must be
    1–5000 chars: with a valid title, a body with an absent or empty
    description is rejected with 400 and no task is created, while a body
    with a 1–5000-char description succeeds with 201 and stores exactly
    that description. -/
theorem C8_description_required_on_create (st : SysState) (b : CreateBody)
    (u : UserRec) (ttl : String)
    (htitle : b.title = some ttl)
    (hlen1 : 1 ≤ ttl.length) (hlen2 : ttl.length ≤ 120) :
    ((b.description = none ∨ b.description = some "") →
      (postTaskRoute st b u).2.status = 400 ∧ (postTaskRoute st b u).1 = st) ∧
    (∀ dsc, b.description = some dsc → 1 ≤ dsc.length → dsc.length ≤ 5000 →
      findTask st (freshId st) = none →
      (postTaskRoute st b u).2.status = 201 ∧
      (findTask (postTaskRoute st b u).1 (freshId st)).map
          StoredTask.description = some (some dsc)) := by
  have htp : parseCreateTitle b.title = .ok (strTrim ttl) := by
    rw [htitle]
    simp only [parseCreateTitle]
    rw [if_neg (by omega), if_neg (by omega)]
  refine ⟨?_, ?_⟩
  · intro hd
    rcases hd with hd | hd
    · have hparse : taskSchemaParse b = .error (.required "description") := by
        simp only [taskSchemaParse, htp, hd]
        rfl
      simp [postTaskRoute, hparse]
    · have hparse : taskSchemaParse b = .error (.tooShort "description") := by
        simp only [taskSchemaParse, htp, hd]
        rfl
      simp [postTaskRoute, hparse]
  · intro dsc hd h1 h2 hfresh
    have hfresh2 : st.tasks.find? (fun x => x.id == freshId st) = none := hfresh
    have hne : dsc ≠ "" := by
      intro hcontra
      subst hcontra
      simp at h1
    have hdp : parseCreateDescription b.description = .ok dsc := by
      rw [hd]
      simp only [parseCreateDescription]
      rw [if_neg (by omega), if_neg (by omega)]
    have hparse : taskSchemaParse b =
        .ok { title := strTrim ttl, description := some dsc } := by
      simp only [taskSchemaParse, htp, hdp]
      rfl
    constructor
    · simp [postTaskRoute, hparse]
    · simp only [postTaskRoute, hparse]
      show ((st.tasks ++
          [(createTask st { title := strTrim ttl, description := some dsc } u).2]).find?
          (fun x => x.id == freshId st)).map StoredTask.description =
        some (some dsc)
      rw [find?_append_none _ _ _ hfresh2]
      rw [List.find?_cons_of_pos _ (by simp [createTask])]
      simp only [Option.map_some']
      show some (if dsc = "" then none else some dsc) = some (some dsc)
      rw [if_neg hne]

/-- Witness for C8 (amended): title "T", description "hello" on the
    fixture state. -/
theorem C8_description_required_on_create_witness :
    ({ title := some "T", description := some "hello" } : CreateBody).title =
      some "T" ∧
    1 ≤ "T".length ∧ "T".length ≤ 120 ∧
    ((({ title := some "T", description := some "hello" } : CreateBody).description = none ∨
        ({ title := some "T", description := some "hello" } : CreateBody).description = some "") →
      (postTaskRoute baseState { title := some "T", description := some "hello" }
          aliceUser).2.status = 400 ∧
      (postTaskRoute baseState { title := some "T", description := some "hello" }
          aliceUser).1 = baseState) ∧
    (∀ dsc, ({ title := some "T", description := some "hello" } : CreateBody).description = some dsc →
      1 ≤ dsc.length → dsc.length ≤ 5000 →
      findTask baseState (freshId baseState) = none →
      (postTaskRoute baseState { title := some "T", description := some "hello" }
          aliceUser).2.status = 201 ∧
      (findTask (postTaskRoute baseState
          { title := some "T", description := some "hello" } aliceUser).1
          (freshId baseState)).map StoredTask.description = some (some dsc)) :=
  ⟨by decide, by decide, by decide,
    (C8_description_required_on_create baseState
      { title := some "T", description := some "hello" } aliceUser "T"
      (by decide) (by decide) (by decide)).1,
    (C8_description_required_on_create baseState
      { title := some "T", description := some "hello" } aliceUser "T"
      (by decide) (by decide) (by decide)).2⟩

/-! ## C9 — forgot-password account enumeration -/

/-- C9: the POST /auth/forgot response is the same function of the request
    whether or not the submitted email belongs to an existing account —
    validation failure gives 400 either way, and otherwise the route
    replies 204 both on service success and on a caught service error — so
    a pair of requests differing only in account existence always receives
    identical status and body. -/
theorem C9_forgot_password_uniform_response
    (emailValidates emailSendFails : Bool) :
    forgotRoute emailValidates true emailSendFails =
      forgotRoute emailValidates false emailSendFails := by
  cases emailValidates <;> cases emailSendFails <;> rfl

/-! ## C10 — malformed or zero If-Match drops the precondition -/

/-- C10: when the If-Match header fails the anchored
    quote-digits-dash parse (so `expectedVersion` stays `undefined`) or its
    parsed version component is 0 (falsy), the PATCH handler's
    optimistic-concurrency precondition is silently dropped: on an existing
    Active task the update applies unconditionally — 200, version bumped —
    and a 409 VersionConflict is impossible regardless of the stored
    version. -/
theorem C10_ifmatch_fallthrough (st : SysState) (tid : String)
    (body : UpdateBody) (p : UpdateTaskData) (h : Option String) (u : UserRec)
    (t : StoredTask)
    (hid : isHexId24 tid = true)
    (hbody : updateTaskSchemaParse body = .ok p)
    (htask : findActiveTask st tid = some t)
    (hdr : parseIfMatch h = none ∨ parseIfMatch h = some 0) :
    (patchTaskRoute st tid body h u).2.status = 200 ∧
    (patchTaskRoute st tid body h u).2.status ≠ 409 ∧
    (findActiveTask (patchTaskRoute st tid body h u).1 tid).map
      StoredTask.version = some (t.version + 1) := by
  have hgate : versionGateFails t.version (parseIfMatch h) = false := by
    rcases hdr with hd | hd <;> simp [versionGateFails, hd]
  have hok : ∃ st' t', updateTask st tid p u (parseIfMatch h) = .ok (st', t') := by
    simp only [updateTask, htask]
    rw [if_neg (by simp [hgate])]
    exact ⟨_, _, rfl⟩
  obtain ⟨st', t', hok⟩ := hok
  obtain ⟨he, hv, _, _, _, _, _, _⟩ :=
    updateTask_ok_effect st tid p u (parseIfMatch h) st' t' t htask hok
  have hroute : patchTaskRoute st tid body h u =
      (st', { status := 200, message := none }) := by
    simp [patchTaskRoute, hid, hbody, hok]
  refine ⟨by rw [hroute], by rw [hroute]; simp, ?_⟩
  rw [hroute]
  show (findActiveTask st' tid).map StoredTask.version = some (t.version + 1)
  rw [he]
  simp [hv]

/-- Witness for C10: the fixture task (version 1) patched with
    If-Match «"0-abc"», whose parsed version component is 0. -/
theorem C10_ifmatch_fallthrough_witness :
    isHexId24 fixtureTaskId = true ∧
    updateTaskSchemaParse titleBody = .ok titlePatch ∧
    findActiveTask baseState fixtureTaskId = some fixtureTask ∧
    (parseIfMatch (some "\"0-abc\"") = none ∨
      parseIfMatch (some "\"0-abc\"") = some 0) ∧
    ((patchTaskRoute baseState fixtureTaskId titleBody (some "\"0-abc\"")
        danaUser).2.status = 200 ∧
      (patchTaskRoute baseState fixtureTaskId titleBody (some "\"0-abc\"")
        danaUser).2.status ≠ 409 ∧
      (findActiveTask (patchTaskRoute baseState fixtureTaskId titleBody
          (some "\"0-abc\"") danaUser).1 fixtureTaskId).map
        StoredTask.version = some (fixtureTask.version + 1)) :=
  ⟨by decide, by decide, by decide, Or.inr (by decide),
    C10_ifmatch_fallthrough baseState fixtureTaskId titleBody titlePatch
      (some "\"0-abc\"") danaUser fixtureTask (by decide) (by decide)
      (by decide) (Or.inr (by decide))⟩

end ToDoBack
